import Mathlib

/-!
Verification development for the conversation-orchestration core of the
`chatbot_gym` repository (src/conversation_orchestrator.py, src/user_agent.py,
src/chat_agent.py).

Modelling conventions for the shallow embedding:
* A conversation entry (a Python dict) is the structure `Turn`; the
  `response_time_seconds` key may be absent in Python (the entry appended by
  `UserAgent.generate_response` has no such key until the orchestrator patches
  it), so the field is an `Option String`, `none` meaning the key is absent.
* The external completion provider and the wall clock are modelled by an
  environment `Env` of oracles indexed by call number: `userGen i` / `chatGen i`
  give the text returned by the i-th generation call of each agent (`none`
  models "client not configured" or "the provider call raised"), `userTime i` /
  `chatTime i` give the string `str(round(end - start, 3))` measured for that
  call, and `stamp n` gives the `datetime.now().isoformat()` string taken when
  the history has length `n`.
* Python real numbers (response times) are modelled by `ℚ`; `round(x, 3)` is
  `pyRound3` (round half to even, as Python's `round`).
* The filesystem is modelled by the value written: `save_conversation` returns
  the `TranscriptRecord` it serializes, and `load_conversation` receives the
  parse outcome of the file (`none` models a missing file or malformed JSON,
  i.e. any exception raised by `open`/`json.load`).
* `time.sleep`, printing, and `delay_between_turns` have no observable effect
  on the data and are omitted.  `conversation_active` is set to `True` at the
  start of a run and, in this sequential model (no concurrent
  `stop_conversation`), stays `True` for the whole run, so it is omitted from
  the loop state.
-/

/-- Speakers recorded in a conversation entry: the strings `"user_agent"` and
`"chat_agent"` in the Python dicts. -/
inductive Speaker where
  | user_agent
  | chat_agent
deriving DecidableEq, Repr

/-- One conversation entry, as appended to `UserAgent.conversation_history`:
a dict `{speaker, message, timestamp, response_time_seconds}`, where the
`response_time_seconds` key can be absent (`none`). -/
structure Turn where
  speaker : Speaker
  message : String
  timestamp : String
  response_time_seconds : Option String
deriving DecidableEq, Repr

/-- Oracles for the external completion provider and the wall clock.
`userGen i` (resp. `chatGen i`) is the text produced by the i-th call of
`UserAgent.generate_response` (resp. `ChatAgent.generate_response`) in the
run, `none` modelling a provider failure; `userTime i` / `chatTime i` is the
measured-latency string `str(round(t, 3))` for that call; `stamp n` is the
timestamp taken when the history has `n` entries. -/
structure Env where
  userGen : Nat → Option String
  chatGen : Nat → Option String
  userTime : Nat → String
  chatTime : Nat → String
  stamp : Nat → String

/-- State of a `UserAgent` (src/user_agent.py): its identity and prompt
strings, its accumulated conversation history, and whether the Llama client
was successfully constructed (`llama_client is not None`). -/
structure UserAgent where
  agent_id : String
  personality_prompt : String
  problem_roleplay_prompt : String
  base_prompt : String
  model : String
  conversation_history : List Turn
  clientAvailable : Bool
deriving DecidableEq, Repr

/-- State of a `ChatAgent` (src/chat_agent.py).  A `ChatAgent` keeps no
conversation history of its own. -/
structure ChatAgent where
  agent_id : String
  system_prompt : String
  initial_message : Option String
  model : String
  clientAvailable : Bool
deriving DecidableEq, Repr

/-- Embeds `UserAgent.generate_response` (src/user_agent.py lines 110-166):
if the client is unavailable, or the provider call fails, return `None` and
leave the history untouched; on success append one entry
`{speaker: "user_agent", message, timestamp: datetime.now().isoformat()}`
(note: no `response_time_seconds` key yet) and return the text.  `i` is the
index of this call in the run's sequence of user-agent generation calls. -/
def UserAgent.generate_response (ua : UserAgent) (env : Env) (i : Nat) :
    Option String × UserAgent :=
  if ua.clientAvailable = false then (none, ua)
  else
    match env.userGen i with
    | none => (none, ua)
    | some r =>
      (some r,
       { ua with conversation_history :=
           ua.conversation_history ++
             [{ speaker := Speaker.user_agent, message := r
              , timestamp := env.stamp ua.conversation_history.length
              , response_time_seconds := none }] })

/-- Embeds `ChatAgent.generate_response` (src/chat_agent.py lines 83-133):
returns the provider's text or `None` on failure; mutates nothing.  The
message and conversation-context arguments of the Python method only shape
the provider's input, which the oracle `chatGen` abstracts over. -/
def ChatAgent.generate_response (ca : ChatAgent) (env : Env) (i : Nat) :
    Option String :=
  if ca.clientAvailable = false then none else env.chatGen i

/-- The record serialized by `UserAgent.save_conversation`
(src/user_agent.py lines 186-197): one JSON object per file.  All its fields
are strings, string lists or an integer, so JSON serialization round-trips
them exactly; the record itself models the file contents. -/
structure TranscriptRecord where
  agent_id : String
  personality_prompt : String
  problem_roleplay_prompt : String
  base_prompt : String
  model : String
  conversation_start : Option String
  conversation_end : Option String
  total_turns : Nat
  conversation : List Turn
deriving DecidableEq, Repr

/-- Embeds `UserAgent.save_conversation` (src/user_agent.py lines 168-203):
the record written to the file.  `conversation_start` is
`history[0]["timestamp"] if history else None`, `conversation_end` is
`history[-1]["timestamp"] if history else None`. -/
def save_conversation (ua : UserAgent) : TranscriptRecord :=
  { agent_id := ua.agent_id
  , personality_prompt := ua.personality_prompt
  , problem_roleplay_prompt := ua.problem_roleplay_prompt
  , base_prompt := ua.base_prompt
  , model := ua.model
  , conversation_start := (ua.conversation_history.head?).map Turn.timestamp
  , conversation_end := (ua.conversation_history.getLast?).map Turn.timestamp
  , total_turns := ua.conversation_history.length
  , conversation := ua.conversation_history }

/-- Embeds `UserAgent.load_conversation` (src/user_agent.py lines 205-224).
The argument `parsed` is the outcome of `open` + `json.load` on the file:
`none` models any raised exception (missing file, malformed JSON), caught by
the `except` clause which returns `False` before the history assignment runs;
`some data` models a successfully parsed record, after which the history is
replaced wholesale by `data.get("conversation", [])` and `True` is returned. -/
def load_conversation (ua : UserAgent) (parsed : Option TranscriptRecord) :
    Bool × UserAgent :=
  match parsed with
  | none => (false, ua)
  | some data => (true, { ua with conversation_history := data.conversation })

/-- Embeds `UserAgent.clear_conversation` (src/user_agent.py lines 226-228). -/
def clear_conversation (ua : UserAgent) : UserAgent :=
  { ua with conversation_history := [] }

/-- The dict returned by `UserAgent.get_conversation_summary`
(src/user_agent.py lines 230-255).  In the source, `last_message` holds the
last entry's timestamp. -/
structure ConversationSummary where
  total_turns : Nat
  user_agent_turns : Nat
  chat_agent_turns : Nat
  conversation_started : Option String
  last_message : Option String
deriving DecidableEq, Repr

/-- Embeds `UserAgent.get_conversation_summary` (src/user_agent.py
lines 230-255). -/
def UserAgent.get_conversation_summary (ua : UserAgent) : ConversationSummary :=
  match ua.conversation_history with
  | [] =>
    { total_turns := 0, user_agent_turns := 0, chat_agent_turns := 0
    , conversation_started := none, last_message := none }
  | _ :: _ =>
    { total_turns := ua.conversation_history.length
    , user_agent_turns :=
        (ua.conversation_history.filter
          (fun t => t.speaker = Speaker.user_agent)).length
    , chat_agent_turns :=
        (ua.conversation_history.filter
          (fun t => t.speaker = Speaker.chat_agent)).length
    , conversation_started := (ua.conversation_history.head?).map Turn.timestamp
    , last_message := (ua.conversation_history.getLast?).map Turn.timestamp }

/-- Floor of a rational, written with `Int.fdiv` (floor division; the
denominator of a `Rat` is positive, so this is the mathematical floor). -/
def ratFloor (q : ℚ) : ℤ := Int.fdiv q.num q.den

/-- Python's round half to even on an exact rational, as used by
`round(x, 3)`:  `roundHalfEven q` is the nearest integer to `q`, ties going
to the even integer. -/
def roundHalfEven (q : ℚ) : ℤ :=
  let f := ratFloor q
  if q - (f : ℚ) < 1/2 then f
  else if (1 : ℚ)/2 < q - (f : ℚ) then f + 1
  else if f % 2 = 0 then f else f + 1

/-- Python's `round(x, 3)` modelled on `ℚ`. -/
def pyRound3 (q : ℚ) : ℚ := (roundHalfEven (q * 1000) : ℚ) / 1000

/-- Numeric value of a decimal digit character. -/
def digitVal (c : Char) : Nat := c.toNat - 48

/-- Value of a run of decimal digit characters; `none` if any character is
not a digit.  An empty run yields `some 0` (emptiness is checked by the
caller). -/
def digitsVal? (l : List Char) : Option Nat :=
  if l.all Char.isDigit then some (l.foldl (fun a c => 10 * a + digitVal c) 0)
  else none

/-- Digits of an unsigned decimal numeral, written as the character list of
the string: an integer part, optionally followed by a dot and a fractional
part (at least one of the two parts nonempty, as accepted by Python's
`float`).  Returns the integer part's value, the fractional part's value and
the fractional part's length. -/
def parseParts? (l : List Char) : Option (Nat × Nat × Nat) :=
  let ip := l.takeWhile (fun c => c != '.')
  match l.dropWhile (fun c => c != '.') with
  | [] =>
    if ip.isEmpty then none
    else (digitsVal? ip).map (fun a => (a, 0, 0))
  | _ :: frac =>
    if frac.contains '.' then none
    else if ip.isEmpty && frac.isEmpty then none
    else
      match digitsVal? ip, digitsVal? frac with
      | some a, some b => some (a, b, frac.length)
      | _, _ => none

/-- The rational value of a parsed decimal numeral: integer part plus
fractional part scaled by its length. -/
def ratOfParts (t : Nat × Nat × Nat) : ℚ :=
  (t.1 : ℚ) + (t.2.1 : ℚ) / (10 : ℚ) ^ t.2.2

/-- Models Python's `float(s)` on the plain decimal numerals produced by
`str(round(t, 3))` and stored in `response_time_seconds` (optionally signed);
`none` models `float` raising `ValueError`. -/
def pyFloat? (s : String) : Option ℚ :=
  if s.toList.head? = some '-' then
    (parseParts? s.toList.tail).map (fun t => -ratOfParts t)
  else (parseParts? s.toList).map ratOfParts

/-- Embeds the collection loop of
`ConversationOrchestrator._calculate_timing_stats`
(src/conversation_orchestrator.py lines 218-231): walk the history in order;
for each entry that has a `response_time_seconds` key whose value parses as a
float, append the value to the user-agent list or the chat-agent list
according to the entry's speaker. -/
def collectTimes : List Turn → List ℚ × List ℚ
  | [] => ([], [])
  | t :: rest =>
    let acc := collectTimes rest
    match t.response_time_seconds with
    | none => acc
    | some s =>
      match pyFloat? s with
      | none => acc
      | some q =>
        match t.speaker with
        | Speaker.user_agent => (q :: acc.1, acc.2)
        | Speaker.chat_agent => (acc.1, q :: acc.2)

/-- Per-role block of the timing-statistics dict
(src/conversation_orchestrator.py lines 235-248). -/
structure RoleStats where
  total_requests : Nat
  total_time_seconds : ℚ
  average_time_seconds : ℚ
  min_time_seconds : ℚ
  max_time_seconds : ℚ
deriving DecidableEq, Repr

/-- The dict returned by `ConversationOrchestrator._calculate_timing_stats`
(src/conversation_orchestrator.py lines 233-249). -/
structure TimingStats where
  total_requests : Nat
  user_agent : RoleStats
  chat_agent : RoleStats
deriving DecidableEq, Repr

/-- Python's `min` over a nonempty list (`0` on `[]`, a case the source
guards with `if times else 0`). -/
def listMin : List ℚ → ℚ
  | [] => 0
  | t :: ts => ts.foldl min t

/-- Python's `max` over a nonempty list (`0` on `[]`, a case the source
guards with `if times else 0`). -/
def listMax : List ℚ → ℚ
  | [] => 0
  | t :: ts => ts.foldl max t

/-- One role's block of `_calculate_timing_stats`
(src/conversation_orchestrator.py lines 235-241 and 242-248):
count, `round(sum, 3)`, `round(sum/len, 3)`, `min`, `max`, each guarded by
`if times else 0`. -/
def roleStats (times : List ℚ) : RoleStats :=
  { total_requests := times.length
  , total_time_seconds := if times.isEmpty then 0 else pyRound3 times.sum
  , average_time_seconds :=
      if times.isEmpty then 0
      else pyRound3 (times.sum / (times.length : ℚ))
  , min_time_seconds := if times.isEmpty then 0 else listMin times
  , max_time_seconds := if times.isEmpty then 0 else listMax times }

/-- Embeds `ConversationOrchestrator._calculate_timing_stats`
(src/conversation_orchestrator.py lines 211-251). -/
def calculate_timing_stats (history : List Turn) : TimingStats :=
  let tsPair := collectTimes history
  { total_requests := tsPair.1.length + tsPair.2.length
  , user_agent := roleStats tsPair.1
  , chat_agent := roleStats tsPair.2 }

/-- The fixed closing phrase of
`ConversationOrchestrator._should_end_conversation`
(src/conversation_orchestrator.py line 174). -/
def ending_phrase : String := "thank you, goodbye."

/-- Boolean prefix test on character lists (used to define the substring
test below). -/
def isPrefixList : List Char → List Char → Bool
  | [], _ => true
  | _ :: _, [] => false
  | a :: as, b :: bs => a == b && isPrefixList as bs

/-- Boolean substring test on character lists: Python's
`needle in haystack` for strings. -/
def containsSub (needle : List Char) : List Char → Bool
  | [] => isPrefixList needle []
  | c :: rest => isPrefixList needle (c :: rest) || containsSub needle rest

/-- Embeds `ConversationOrchestrator._should_end_conversation`
(src/conversation_orchestrator.py lines 173-179):
`ending_phrase in message.lower()`, with `str.lower` modelled as
lower-casing every character of the message. -/
def should_end_conversation (message : String) : Bool :=
  containsSub ending_phrase.toList (message.toList.map Char.toLower)

/-- Embeds the timing patch of src/conversation_orchestrator.py lines 76-77:
if the history is nonempty, set the last entry's `response_time_seconds` to
the measured-latency string. -/
def patchLast (ua : UserAgent) (rt : String) : UserAgent :=
  match ua.conversation_history.getLast? with
  | none => ua
  | some last =>
    { ua with conversation_history :=
        ua.conversation_history.dropLast ++
          [{ last with response_time_seconds := some rt }] }

/-- Embeds the timing patch of src/conversation_orchestrator.py
lines 129-130: if the history is nonempty and its last entry's speaker is
`"user_agent"`, set that entry's `response_time_seconds`. -/
def patchLastIfUser (ua : UserAgent) (rt : String) : UserAgent :=
  match ua.conversation_history.getLast? with
  | none => ua
  | some last =>
    if last.speaker = Speaker.user_agent then
      { ua with conversation_history :=
          ua.conversation_history.dropLast ++
            [{ last with response_time_seconds := some rt }] }
    else ua

/-- Appends one fully-formed entry to the history (the
`conversation_history.append({...})` calls of the orchestrator at
src/conversation_orchestrator.py lines 56-61, 104-109 and 152-157). -/
def appendTurn (ua : UserAgent) (sp : Speaker) (msg tstamp : String)
    (rt : Option String) : UserAgent :=
  { ua with conversation_history :=
      ua.conversation_history ++
        [{ speaker := sp, message := msg, timestamp := tstamp
         , response_time_seconds := rt }] }

/-- Python truthiness of an optional string: `None` and `""` are falsy. -/
def truthy : Option String → Bool
  | none => false
  | some s => s != ""

/-- Mutable state of the orchestrator's main loop
(src/conversation_orchestrator.py lines 82-163): the user agent (owner of the
history), the turn counter, the number of generation calls made so far by
each agent (indices into the `Env` oracles), and `last_message`. -/
structure LoopState where
  ua : UserAgent
  turn_count : Nat
  uIdx : Nat
  cIdx : Nat
  last_message : String
deriving Repr

/-- Observation of why `start_conversation` stopped: turn-budget exhaustion
(`while turn_count < max_turns` became false), a `break` after a failed
chat-agent or user-agent generation, the natural-end `break` after the
closing phrase, or the early `return` after a failed bootstrap generation.
This tag is an added observation for the theorems; it does not influence the
computed data. -/
inductive ExitKind where
  | budget
  | chatFailure
  | userFailure
  | natural
  | bootstrapFailure
deriving DecidableEq, Repr

/-- Loop state after a successful chat-agent turn
(src/conversation_orchestrator.py lines 103-112 and 163): append the reply
with its measured latency, set `last_message`, increment the counter. -/
def chatNext (env : Env) (st : LoopState) (r : String) : LoopState :=
  { ua := appendTurn st.ua Speaker.chat_agent r
            (env.stamp st.ua.conversation_history.length)
            (some (env.chatTime st.cIdx))
  , turn_count := st.turn_count + 1
  , uIdx := st.uIdx
  , cIdx := st.cIdx + 1
  , last_message := r }

/-- Loop state after a successful user-agent turn with no closing phrase
(src/conversation_orchestrator.py lines 119-133 and 163): `ua1` is the user
agent returned by `generate_response` (one entry appended); patch that
entry's latency, set `last_message`, increment the counter. -/
def userNext (env : Env) (st : LoopState) (r : String) (ua1 : UserAgent) :
    LoopState :=
  { ua := patchLastIfUser ua1 (env.userTime st.uIdx)
  , turn_count := st.turn_count + 1
  , uIdx := st.uIdx + 1
  , cIdx := st.cIdx
  , last_message := r }

/-- Loop state at the natural-end `break` when the final chat-agent response
is falsy (`None` or `""`, src/conversation_orchestrator.py lines 149-161
with the `if final_response:` body skipped): only the user agent's goodbye
turn was appended and patched; the counter is not incremented. -/
def goodbyeNoFinal (env : Env) (st : LoopState) (r : String) (ua1 : UserAgent) :
    LoopState :=
  { ua := patchLastIfUser ua1 (env.userTime st.uIdx)
  , turn_count := st.turn_count
  , uIdx := st.uIdx + 1
  , cIdx := st.cIdx
  , last_message := r }

/-- Loop state at the natural-end `break` when the final chat-agent response
`fr` is truthy (src/conversation_orchestrator.py lines 149-161): the user
agent's goodbye turn was appended and patched, the final chat reply was
appended with its latency, and the counter was incremented once (the
iteration's own `turn_count += 1` at line 163 is skipped by the `break`). -/
def goodbyeFinal (env : Env) (st : LoopState) (r fr : String) (ua1 : UserAgent) :
    LoopState :=
  let ua2 := patchLastIfUser ua1 (env.userTime st.uIdx)
  { ua := appendTurn ua2 Speaker.chat_agent fr
            (env.stamp ua2.conversation_history.length)
            (some (env.chatTime st.cIdx))
  , turn_count := st.turn_count + 1
  , uIdx := st.uIdx + 1
  , cIdx := st.cIdx + 1
  , last_message := r }

/-- Embeds the main loop of `ConversationOrchestrator.start_conversation`
(src/conversation_orchestrator.py lines 82-163).  The `fuel` argument only
guarantees termination: every continuing iteration increments `turn_count`
and consumes one unit, and callers supply `fuel = max_turns`, which the loop
guard `turn_count < max_turns` exhausts first, so the `fuel = 0` branch
coincides with the guard's budget exit.  The chat-agent turn is taken when
`turn_count % 2 == (0 if initial_message else 1)` (line 86); the caller
passes that value as `parityTarget`. -/
def conversationLoop (env : Env) (ca : ChatAgent) (parityTarget max_turns : Nat) :
    Nat → LoopState → LoopState × ExitKind
  | 0, st => (st, ExitKind.budget)
  | fuel + 1, st =>
    if st.turn_count < max_turns then
      if st.turn_count % 2 = parityTarget then
        match ChatAgent.generate_response ca env st.cIdx with
        | none => (st, ExitKind.chatFailure)
        | some response =>
          conversationLoop env ca parityTarget max_turns fuel (chatNext env st response)
      else
        match UserAgent.generate_response st.ua env st.uIdx with
        | (none, _) => (st, ExitKind.userFailure)
        | (some response, ua1) =>
          if should_end_conversation response then
            match ChatAgent.generate_response ca env st.cIdx with
            | some fr =>
              if fr = "" then (goodbyeNoFinal env st response ua1, ExitKind.natural)
              else (goodbyeFinal env st response fr ua1, ExitKind.natural)
            | none => (goodbyeNoFinal env st response ua1, ExitKind.natural)
          else
            conversationLoop env ca parityTarget max_turns fuel (userNext env st response ua1)
    else (st, ExitKind.budget)

/-- The opening-utterance resolution of
src/conversation_orchestrator.py lines 44-50: the explicit parameter wins
when it `is not None`; otherwise the chat agent's `initial_message` is used
when truthy; otherwise there is no opening utterance. -/
def resolveOpening (initial_message : Option String) (ca : ChatAgent) :
    Option String :=
  match initial_message with
  | some m => some m
  | none => if truthy ca.initial_message then ca.initial_message else none

/-- Embeds `ConversationOrchestrator._create_result_dict`
(src/conversation_orchestrator.py lines 181-209).  `saved` stands for the
`filepath` argument: `some record` when `save_conversation` wrote `record`,
`none` when the filepath was `None` (no save performed). -/
structure RunResult where
  success : Bool
  message : String
  turn_count : Nat
  user_agent_id : String
  chat_agent_id : String
  conversation_summary : ConversationSummary
  saved : Option TranscriptRecord
  timing_statistics : TimingStats
deriving Repr

/-- Builds the result dict of `_create_result_dict`
(src/conversation_orchestrator.py lines 181-209) from the user agent's state
at return time. -/
def create_result_dict (ua : UserAgent) (ca : ChatAgent) (success : Bool)
    (message : String) (turn_count : Nat) (saved : Option TranscriptRecord) :
    RunResult :=
  { success := success
  , message := message
  , turn_count := turn_count
  , user_agent_id := ua.agent_id
  , chat_agent_id := ca.agent_id
  , conversation_summary := ua.get_conversation_summary
  , saved := saved
  , timing_statistics := calculate_timing_stats ua.conversation_history }

/-- Embeds `ConversationOrchestrator.start_conversation`
(src/conversation_orchestrator.py lines 25-171).  Returns the result dict,
the user agent's final state (owner of the history), and the exit
observation.  With an opening utterance (lines 45-61) the opening entry is
appended with `response_time_seconds = "0.0"` and the loop starts at
`turn_count = 0`; otherwise (lines 62-80) the user agent bootstraps with
`generate_response("Hello, I need some help.")`: on failure the run returns
`success = False` without saving, on success the appended entry's latency is
patched and the loop starts at `turn_count = 1`.  Either loop exit falls
through to lines 165-171: save the conversation and return a `success =
True` result. -/
def start_conversation (ua : UserAgent) (ca : ChatAgent) (env : Env)
    (initial_message : Option String) (max_turns : Nat) :
    RunResult × UserAgent × ExitKind :=
  let parityTarget : Nat := if truthy initial_message then 0 else 1
  match resolveOpening initial_message ca with
  | some m =>
    let ua1 := appendTurn ua Speaker.chat_agent m
      (env.stamp ua.conversation_history.length) (some "0.0")
    let out := conversationLoop env ca parityTarget max_turns max_turns
      { ua := ua1, turn_count := 0, uIdx := 0, cIdx := 0, last_message := m }
    (create_result_dict out.1.ua ca true "Conversation completed successfully"
       out.1.turn_count (some (save_conversation out.1.ua)), out.1.ua, out.2)
  | none =>
    match UserAgent.generate_response ua env 0 with
    | (none, _) =>
      (create_result_dict ua ca false "Failed to generate initial user message"
         0 none, ua, ExitKind.bootstrapFailure)
    | (some m, ua1) =>
      let ua2 := patchLast ua1 (env.userTime 0)
      let out := conversationLoop env ca parityTarget max_turns max_turns
        { ua := ua2, turn_count := 1, uIdx := 1, cIdx := 0, last_message := m }
      (create_result_dict out.1.ua ca true "Conversation completed successfully"
         out.1.turn_count (some (save_conversation out.1.ua)), out.1.ua, out.2)

/-- The speaker the last history entry must have for strict alternation to
continue: the mover at counter `tc` is the chat agent exactly when
`tc % 2 = parityTarget`, so the previous entry must be by the other side. -/
def expectedLast (p tc : Nat) : Speaker :=
  if tc % 2 = p then Speaker.user_agent else Speaker.chat_agent

/-- A history that ends in a goodbye: its last entry is a user-agent turn
whose message contains the closing phrase, or such a turn followed by exactly
one chat-agent turn. -/
def endsGoodbye (l : List Turn) : Prop :=
  (∃ pre u, l = pre ++ [u] ∧ u.speaker = Speaker.user_agent
     ∧ should_end_conversation u.message = true)
  ∨ (∃ pre u c, l = pre ++ [u, c] ∧ u.speaker = Speaker.user_agent
     ∧ should_end_conversation u.message = true ∧ c.speaker = Speaker.chat_agent)

theorem generate_response_some (ua : UserAgent) (env : Env) (i : Nat)
    (r : String) (ua1 : UserAgent)
    (h : UserAgent.generate_response ua env i = (some r, ua1)) :
    ua1 = { ua with conversation_history :=
             ua.conversation_history ++
               [{ speaker := Speaker.user_agent, message := r
                , timestamp := env.stamp ua.conversation_history.length
                , response_time_seconds := none }] } := by
  unfold UserAgent.generate_response at h
  by_cases hc : ua.clientAvailable = false
  · simp [hc] at h
  · simp only [hc, if_false] at h
    cases hg : env.userGen i with
    | none => rw [hg] at h; simp at h
    | some r2 =>
      rw [hg] at h
      injection h with h1 h2
      injection h1 with h1
      subst h1
      have hct : ua.clientAvailable = true := by
        cases hcb : ua.clientAvailable
        · exact absurd hcb hc
        · rfl
      rw [← h2, hct]

theorem patchLastIfUser_concat (ua : UserAgent) (l : List Turn) (u : Turn)
    (rt : String) (h : ua.conversation_history = l ++ [u])
    (hu : u.speaker = Speaker.user_agent) :
    patchLastIfUser ua rt
      = { ua with conversation_history :=
            l ++ [{ u with response_time_seconds := some rt }] } := by
  unfold patchLastIfUser
  rw [h]
  simp [List.getLast?_concat, List.dropLast_concat, hu]

theorem patchLast_concat (ua : UserAgent) (l : List Turn) (u : Turn)
    (rt : String) (h : ua.conversation_history = l ++ [u]) :
    patchLast ua rt
      = { ua with conversation_history :=
            l ++ [{ u with response_time_seconds := some rt }] } := by
  unfold patchLast
  rw [h]
  simp [List.getLast?_concat, List.dropLast_concat]

theorem conversationLoop_budgetExit (env : Env) (ca : ChatAgent) (p mt : Nat)
    (fuel : Nat) (st : LoopState) (h : ¬ st.turn_count < mt) :
    conversationLoop env ca p mt fuel st = (st, ExitKind.budget) := by
  cases fuel with
  | zero => simp [conversationLoop]
  | succ fuel => simp [conversationLoop, h]

theorem conversationLoop_chatFailure (env : Env) (ca : ChatAgent) (p mt : Nat)
    (fuel : Nat) (st : LoopState) (hm : st.turn_count < mt)
    (hpar : st.turn_count % 2 = p)
    (hcg : ChatAgent.generate_response ca env st.cIdx = none) :
    conversationLoop env ca p mt (fuel + 1) st = (st, ExitKind.chatFailure) := by
  simp [conversationLoop, hm, hpar, hcg]

theorem conversationLoop_chatStep (env : Env) (ca : ChatAgent) (p mt : Nat)
    (fuel : Nat) (st : LoopState) (r : String) (hm : st.turn_count < mt)
    (hpar : st.turn_count % 2 = p)
    (hcg : ChatAgent.generate_response ca env st.cIdx = some r) :
    conversationLoop env ca p mt (fuel + 1) st
      = conversationLoop env ca p mt fuel (chatNext env st r) := by
  simp [conversationLoop, hm, hpar, hcg]

theorem conversationLoop_userFailure (env : Env) (ca : ChatAgent) (p mt : Nat)
    (fuel : Nat) (st : LoopState) (ua1 : UserAgent) (hm : st.turn_count < mt)
    (hpar : ¬ st.turn_count % 2 = p)
    (hgen : UserAgent.generate_response st.ua env st.uIdx = (none, ua1)) :
    conversationLoop env ca p mt (fuel + 1) st = (st, ExitKind.userFailure) := by
  simp [conversationLoop, hm, hpar, hgen]

theorem conversationLoop_userStep (env : Env) (ca : ChatAgent) (p mt : Nat)
    (fuel : Nat) (st : LoopState) (r : String) (ua1 : UserAgent)
    (hm : st.turn_count < mt) (hpar : ¬ st.turn_count % 2 = p)
    (hgen : UserAgent.generate_response st.ua env st.uIdx = (some r, ua1))
    (hend : should_end_conversation r = false) :
    conversationLoop env ca p mt (fuel + 1) st
      = conversationLoop env ca p mt fuel (userNext env st r ua1) := by
  simp [conversationLoop, hm, hpar, hgen, hend]

theorem conversationLoop_goodbyeNone (env : Env) (ca : ChatAgent) (p mt : Nat)
    (fuel : Nat) (st : LoopState) (r : String) (ua1 : UserAgent)
    (hm : st.turn_count < mt) (hpar : ¬ st.turn_count % 2 = p)
    (hgen : UserAgent.generate_response st.ua env st.uIdx = (some r, ua1))
    (hend : should_end_conversation r = true)
    (hcg : ChatAgent.generate_response ca env st.cIdx = none) :
    conversationLoop env ca p mt (fuel + 1) st
      = (goodbyeNoFinal env st r ua1, ExitKind.natural) := by
  simp [conversationLoop, hm, hpar, hgen, hend, hcg]

theorem conversationLoop_goodbyeEmpty (env : Env) (ca : ChatAgent) (p mt : Nat)
    (fuel : Nat) (st : LoopState) (r : String) (ua1 : UserAgent)
    (hm : st.turn_count < mt) (hpar : ¬ st.turn_count % 2 = p)
    (hgen : UserAgent.generate_response st.ua env st.uIdx = (some r, ua1))
    (hend : should_end_conversation r = true)
    (hcg : ChatAgent.generate_response ca env st.cIdx = some "") :
    conversationLoop env ca p mt (fuel + 1) st
      = (goodbyeNoFinal env st r ua1, ExitKind.natural) := by
  simp [conversationLoop, hm, hpar, hgen, hend, hcg]

theorem conversationLoop_goodbyeFinal (env : Env) (ca : ChatAgent) (p mt : Nat)
    (fuel : Nat) (st : LoopState) (r fr : String) (ua1 : UserAgent)
    (hm : st.turn_count < mt) (hpar : ¬ st.turn_count % 2 = p)
    (hgen : UserAgent.generate_response st.ua env st.uIdx = (some r, ua1))
    (hend : should_end_conversation r = true)
    (hcg : ChatAgent.generate_response ca env st.cIdx = some fr)
    (hfr : ¬ fr = "") :
    conversationLoop env ca p mt (fuel + 1) st
      = (goodbyeFinal env st r fr ua1, ExitKind.natural) := by
  simp [conversationLoop, hm, hpar, hgen, hend, hcg, hfr]

theorem expectedLast_here_eq (p tc : Nat) (h : tc % 2 = p) :
    expectedLast p tc = Speaker.user_agent := by
  simp [expectedLast, h]

theorem expectedLast_here_ne (p tc : Nat) (h : ¬ tc % 2 = p) :
    expectedLast p tc = Speaker.chat_agent := by
  simp [expectedLast, h]

theorem expectedLast_succ_eq (p tc : Nat) (_hp : p < 2) (h : tc % 2 = p) :
    expectedLast p (tc + 1) = Speaker.chat_agent := by
  have hne : ¬ (tc + 1) % 2 = p := by omega
  simp [expectedLast, hne]

theorem expectedLast_succ_ne (p tc : Nat) (hp : p < 2) (h : ¬ tc % 2 = p) :
    expectedLast p (tc + 1) = Speaker.user_agent := by
  have heq : (tc + 1) % 2 = p := by omega
  simp [expectedLast, heq]

theorem conversationLoop_spec (env : Env) (ca : ChatAgent) (p mt : Nat)
    (hp : p < 2) :
    ∀ fuel st st2 ek, conversationLoop env ca p mt fuel st = (st2, ek) →
      ek ≠ ExitKind.bootstrapFailure
      ∧ (st2.ua.conversation_history.length + st.turn_count
          = st.ua.conversation_history.length + st2.turn_count
            + (if ek = ExitKind.natural then 1 else 0))
      ∧ (mt ≤ fuel + st.turn_count → ek = ExitKind.budget → mt ≤ st2.turn_count)
      ∧ (ek = ExitKind.natural → endsGoodbye st2.ua.conversation_history)
      ∧ ((st.ua.conversation_history.getLast?).map Turn.speaker
            = some (expectedLast p st.turn_count) →
          ∃ ext, st2.ua.conversation_history = st.ua.conversation_history ++ ext
            ∧ List.Chain' (fun a b => a ≠ b)
                (expectedLast p st.turn_count :: ext.map Turn.speaker)) := by
  intro fuel
  induction fuel with
  | zero =>
    intro st st2 ek h
    simp only [conversationLoop] at h
    injection h with h1 h2
    subst h1; subst h2
    refine ⟨by decide, by simp, fun hf _ => by omega,
            fun hek => absurd hek (by decide), fun _ => ⟨[], by simp⟩⟩
  | succ fuel ih =>
    intro st st2 ek h
    by_cases hm : st.turn_count < mt
    · by_cases hpar : st.turn_count % 2 = p
      · cases hcg : ChatAgent.generate_response ca env st.cIdx with
        | none =>
          rw [conversationLoop_chatFailure env ca p mt fuel st hm hpar hcg] at h
          injection h with h1 h2
          subst h1; subst h2
          exact ⟨by decide, by simp, fun _ hek => absurd hek (by decide),
                 fun hek => absurd hek (by decide), fun _ => ⟨[], by simp⟩⟩
        | some r =>
          rw [conversationLoop_chatStep env ca p mt fuel st r hm hpar hcg] at h
          obtain ⟨hb, hlen, hbud, hnat, hchain⟩ := ih (chatNext env st r) st2 ek h
          have htc : (chatNext env st r).turn_count = st.turn_count + 1 := rfl
          have hhist : (chatNext env st r).ua.conversation_history
              = st.ua.conversation_history ++
                  [{ speaker := Speaker.chat_agent, message := r
                   , timestamp := env.stamp st.ua.conversation_history.length
                   , response_time_seconds := some (env.chatTime st.cIdx) }] := by
            simp [chatNext, appendTurn]
          refine ⟨hb, ?_, ?_, hnat, ?_⟩
          · rw [htc, hhist] at hlen
            simp only [List.length_append, List.length_singleton] at hlen
            by_cases hek : ek = ExitKind.natural <;> simp [hek] at hlen ⊢ <;> omega
          · intro hf hek
            exact hbud (by rw [htc]; omega) hek
          · intro hlast
            have hlast1 : ((chatNext env st r).ua.conversation_history.getLast?).map
                Turn.speaker = some (expectedLast p (chatNext env st r).turn_count) := by
              rw [htc, hhist, List.getLast?_concat, expectedLast_succ_eq p st.turn_count hp hpar]
              rfl
            obtain ⟨ext1, hext1, hchain1⟩ := hchain hlast1
            refine ⟨{ speaker := Speaker.chat_agent, message := r
                    , timestamp := env.stamp st.ua.conversation_history.length
                    , response_time_seconds := some (env.chatTime st.cIdx) } :: ext1, ?_, ?_⟩
            · rw [hext1, hhist]
              simp
            · rw [expectedLast_here_eq p st.turn_count hpar]
              rw [htc, expectedLast_succ_eq p st.turn_count hp hpar] at hchain1
              simp only [List.map_cons, List.chain'_cons]
              exact ⟨by decide, hchain1⟩
      · rcases hgen : UserAgent.generate_response st.ua env st.uIdx with ⟨o, ua1⟩
        cases o with
        | none =>
          rw [conversationLoop_userFailure env ca p mt fuel st ua1 hm hpar hgen] at h
          injection h with h1 h2
          subst h1; subst h2
          exact ⟨by decide, by simp, fun _ hek => absurd hek (by decide),
                 fun hek => absurd hek (by decide), fun _ => ⟨[], by simp⟩⟩
        | some r =>
          have hua1 : ua1.conversation_history
              = st.ua.conversation_history ++
                  [{ speaker := Speaker.user_agent, message := r
                   , timestamp := env.stamp st.ua.conversation_history.length
                   , response_time_seconds := none }] := by
            rw [generate_response_some st.ua env st.uIdx r ua1 hgen]
          have hpatch := patchLastIfUser_concat ua1 st.ua.conversation_history
            { speaker := Speaker.user_agent, message := r
            , timestamp := env.stamp st.ua.conversation_history.length
            , response_time_seconds := none }
            (env.userTime st.uIdx) hua1 rfl
          by_cases hend : should_end_conversation r = true
          · cases hcg : ChatAgent.generate_response ca env st.cIdx with
            | none =>
              rw [conversationLoop_goodbyeNone env ca p mt fuel st r ua1 hm hpar hgen hend hcg] at h
              injection h with h1 h2
              subst h1; subst h2
              have hh : (goodbyeNoFinal env st r ua1).ua.conversation_history
                  = st.ua.conversation_history ++
                      [{ speaker := Speaker.user_agent, message := r
                       , timestamp := env.stamp st.ua.conversation_history.length
                       , response_time_seconds := some (env.userTime st.uIdx) }] := by
                show (patchLastIfUser ua1 (env.userTime st.uIdx)).conversation_history = _
                rw [hpatch]
              refine ⟨by decide, ?_, fun _ hek => absurd hek (by decide), ?_, ?_⟩
              · rw [hh]
                simp [goodbyeNoFinal]
                omega
              · intro _
                exact Or.inl ⟨st.ua.conversation_history, _, hh, rfl, hend⟩
              · intro hlast
                refine ⟨[{ speaker := Speaker.user_agent, message := r
                         , timestamp := env.stamp st.ua.conversation_history.length
                         , response_time_seconds := some (env.userTime st.uIdx) }], hh, ?_⟩
                rw [expectedLast_here_ne p st.turn_count hpar]
                simp
            | some fr =>
              by_cases hfr : fr = ""
              · subst hfr
                rw [conversationLoop_goodbyeEmpty env ca p mt fuel st r ua1 hm hpar hgen hend hcg] at h
                injection h with h1 h2
                subst h1; subst h2
                have hh : (goodbyeNoFinal env st r ua1).ua.conversation_history
                    = st.ua.conversation_history ++
                        [{ speaker := Speaker.user_agent, message := r
                         , timestamp := env.stamp st.ua.conversation_history.length
                         , response_time_seconds := some (env.userTime st.uIdx) }] := by
                  show (patchLastIfUser ua1 (env.userTime st.uIdx)).conversation_history = _
                  rw [hpatch]
                refine ⟨by decide, ?_, fun _ hek => absurd hek (by decide), ?_, ?_⟩
                · rw [hh]
                  simp [goodbyeNoFinal]
                  omega
                · intro _
                  exact Or.inl ⟨st.ua.conversation_history, _, hh, rfl, hend⟩
                · intro hlast
                  refine ⟨[{ speaker := Speaker.user_agent, message := r
                           , timestamp := env.stamp st.ua.conversation_history.length
                           , response_time_seconds := some (env.userTime st.uIdx) }], hh, ?_⟩
                  rw [expectedLast_here_ne p st.turn_count hpar]
                  simp
              · rw [conversationLoop_goodbyeFinal env ca p mt fuel st r fr ua1 hm hpar hgen hend hcg hfr] at h
                injection h with h1 h2
                subst h1; subst h2
                have hh : (goodbyeFinal env st r fr ua1).ua.conversation_history
                    = st.ua.conversation_history ++
                        [{ speaker := Speaker.user_agent, message := r
                         , timestamp := env.stamp st.ua.conversation_history.length
                         , response_time_seconds := some (env.userTime st.uIdx) },
                         { speaker := Speaker.chat_agent, message := fr
                         , timestamp := env.stamp
                             (patchLastIfUser ua1 (env.userTime st.uIdx)).conversation_history.length
                         , response_time_seconds := some (env.chatTime st.cIdx) }] := by
                  show (appendTurn (patchLastIfUser ua1 (env.userTime st.uIdx))
                          Speaker.chat_agent fr _ _).conversation_history = _
                  rw [appendTurn, hpatch]
                  simp
                refine ⟨by decide, ?_, fun _ hek => absurd hek (by decide), ?_, ?_⟩
                · rw [hh]
                  simp [goodbyeFinal]
                  omega
                · intro _
                  refine Or.inr ⟨st.ua.conversation_history, _, _, hh, rfl, hend, rfl⟩
                · intro hlast
                  refine ⟨_, hh, ?_⟩
                  rw [expectedLast_here_ne p st.turn_count hpar]
                  simp only [List.map_cons, List.map_nil, List.chain'_cons]
                  exact ⟨by decide, by decide, by simp⟩
          · have hendf : should_end_conversation r = false := by
              revert hend; cases should_end_conversation r <;> simp
            rw [conversationLoop_userStep env ca p mt fuel st r ua1 hm hpar hgen hendf] at h
            obtain ⟨hb, hlen, hbud, hnat, hchain⟩ := ih (userNext env st r ua1) st2 ek h
            have htc : (userNext env st r ua1).turn_count = st.turn_count + 1 := rfl
            have hhist : (userNext env st r ua1).ua.conversation_history
                = st.ua.conversation_history ++
                    [{ speaker := Speaker.user_agent, message := r
                     , timestamp := env.stamp st.ua.conversation_history.length
                     , response_time_seconds := some (env.userTime st.uIdx) }] := by
              show (patchLastIfUser ua1 (env.userTime st.uIdx)).conversation_history = _
              rw [hpatch]
            refine ⟨hb, ?_, ?_, hnat, ?_⟩
            · rw [htc, hhist] at hlen
              simp only [List.length_append, List.length_singleton] at hlen
              by_cases hek : ek = ExitKind.natural <;> simp [hek] at hlen ⊢ <;> omega
            · intro hf hek
              exact hbud (by rw [htc]; omega) hek
            · intro hlast
              have hlast1 : ((userNext env st r ua1).ua.conversation_history.getLast?).map
                  Turn.speaker = some (expectedLast p (userNext env st r ua1).turn_count) := by
                rw [htc, hhist, List.getLast?_concat, expectedLast_succ_ne p st.turn_count hp hpar]
                rfl
              obtain ⟨ext1, hext1, hchain1⟩ := hchain hlast1
              refine ⟨{ speaker := Speaker.user_agent, message := r
                      , timestamp := env.stamp st.ua.conversation_history.length
                      , response_time_seconds := some (env.userTime st.uIdx) } :: ext1, ?_, ?_⟩
              · rw [hext1, hhist]
                simp
              · rw [expectedLast_here_ne p st.turn_count hpar]
                rw [htc, expectedLast_succ_ne p st.turn_count hp hpar] at hchain1
                simp only [List.map_cons, List.chain'_cons]
                exact ⟨by decide, hchain1⟩
    · rw [conversationLoop_budgetExit env ca p mt (fuel + 1) st hm] at h
      injection h with h1 h2
      subst h1; subst h2
      refine ⟨by decide, by simp, fun _ _ => by omega,
              fun hek => absurd hek (by decide), fun _ => ⟨[], by simp⟩⟩

/-- C5: for every conversation history (any list of turns with speaker,
message, timestamp and response-time fields), saving it with
`save_conversation` and loading the written record with `load_conversation`
restores a history equal to the original in all fields (the written record's
fields are strings, so JSON serialization is exact), reports success, and
replaces the loading agent's history wholesale. -/
theorem c5_save_load_roundtrip (ua ua2 : UserAgent) :
    load_conversation ua2 (some (save_conversation ua))
      = (true, { ua2 with conversation_history := ua.conversation_history }) := rfl

/-- C7: a user-agent respond call returns the provider's text exactly when
the client is configured; on success the new state is the old one with
exactly one entry appended, carrying the fresh timestamp taken at append
time and the placeholder response time (the `response_time_seconds` key is
absent, i.e. `none`, until the orchestrator fills it in); on failure (client
not configured, or the provider call raising) the state is exactly the old
one — nothing appended, no partial mutation. -/
theorem c7_generate_response (ua : UserAgent) (env : Env) (i : Nat) :
    ((UserAgent.generate_response ua env i).1
        = (if ua.clientAvailable then env.userGen i else none))
    ∧ ((UserAgent.generate_response ua env i).2
        = match (UserAgent.generate_response ua env i).1 with
          | none => ua
          | some r =>
            { ua with conversation_history :=
                ua.conversation_history ++
                  [{ speaker := Speaker.user_agent, message := r
                   , timestamp := env.stamp ua.conversation_history.length
                   , response_time_seconds := none }] }) := by
  cases hc : ua.clientAvailable <;>
    cases hg : env.userGen i <;>
      simp [UserAgent.generate_response, hc, hg]

/-- C8: loading from a missing or malformed transcript file (any exception
from `open`/`json.load`, modelled by `parsed = none`) yields the returned
failure value `false` with the in-memory history entirely unchanged; loading
a parsed record yields `true` with the history replaced wholesale by the
record's conversation. -/
theorem c8_load_conversation (ua : UserAgent) :
    load_conversation ua none = (false, ua)
    ∧ ∀ data : TranscriptRecord,
        load_conversation ua (some data)
          = (true, { ua with conversation_history := data.conversation }) :=
  ⟨rfl, fun _ => rfl⟩

/-- C10: every record written by `save_conversation` has `total_turns` equal
to the length of its conversation array, `conversation_start` equal to the
first turn's timestamp and `conversation_end` to the last turn's, and both
are null exactly when the history is empty (an empty history still yields a
well-formed record). -/
theorem c10_save_record (ua : UserAgent) :
    (save_conversation ua).total_turns = (save_conversation ua).conversation.length
    ∧ (save_conversation ua).conversation_start
        = ((save_conversation ua).conversation.head?).map Turn.timestamp
    ∧ (save_conversation ua).conversation_end
        = ((save_conversation ua).conversation.getLast?).map Turn.timestamp
    ∧ ((save_conversation ua).conversation_start = none
        ↔ (save_conversation ua).conversation = [])
    ∧ ((save_conversation ua).conversation_end = none
        ↔ (save_conversation ua).conversation = []) := by
  refine ⟨rfl, rfl, rfl, ?_, ?_⟩
  · simp [save_conversation]
  · simp [save_conversation]

/-- The response times of one role's entries that carry a parseable
`response_time_seconds` value, read off the history in order.  This is the
specification-side description of the lists that
`_calculate_timing_stats` collects. -/
def roleTimes (sp : Speaker) (history : List Turn) : List ℚ :=
  history.filterMap (fun t =>
    if t.speaker = sp then t.response_time_seconds.bind pyFloat? else none)

theorem collectTimes_eq (history : List Turn) :
    collectTimes history
      = (roleTimes Speaker.user_agent history, roleTimes Speaker.chat_agent history) := by
  induction history with
  | nil => rfl
  | cons t rest ih =>
    simp only [collectTimes, ih, roleTimes, List.filterMap_cons]
    cases hrt : t.response_time_seconds with
    | none => cases hs : t.speaker <;> simp [hrt, hs, roleTimes]
    | some s =>
      cases hq : pyFloat? s with
      | none => cases hs : t.speaker <;> simp [hrt, hs, hq, roleTimes]
      | some q => cases hs : t.speaker <;> simp [hrt, hs, hq, roleTimes]

theorem foldl_min_le_init (l : List ℚ) : ∀ a : ℚ, l.foldl min a ≤ a := by
  induction l with
  | nil => intro a; simp
  | cons c t ih =>
    intro a
    simp only [List.foldl_cons]
    exact le_trans (ih (min a c)) (min_le_left a c)

theorem foldl_min_le_mem (l : List ℚ) : ∀ a : ℚ, ∀ x ∈ l, l.foldl min a ≤ x := by
  induction l with
  | nil => intro a x hx; simp at hx
  | cons c t ih =>
    intro a x hx
    simp only [List.foldl_cons]
    rcases List.mem_cons.mp hx with h | h
    · subst h
      exact le_trans (foldl_min_le_init t (min a x)) (min_le_right a x)
    · exact ih (min a c) x h

theorem foldl_min_mem (l : List ℚ) : ∀ a : ℚ, l.foldl min a = a ∨ l.foldl min a ∈ l := by
  induction l with
  | nil => intro a; exact Or.inl rfl
  | cons c t ih =>
    intro a
    simp only [List.foldl_cons]
    rcases ih (min a c) with h | h
    · rcases min_choice a c with hm | hm
      · exact Or.inl (h.trans hm)
      · exact Or.inr (List.mem_cons.mpr (Or.inl (h.trans hm)))
    · exact Or.inr (List.mem_cons.mpr (Or.inr h))

theorem foldl_max_le_init (l : List ℚ) : ∀ a : ℚ, a ≤ l.foldl max a := by
  induction l with
  | nil => intro a; simp
  | cons c t ih =>
    intro a
    simp only [List.foldl_cons]
    exact le_trans (le_max_left a c) (ih (max a c))

theorem foldl_max_le_mem (l : List ℚ) : ∀ a : ℚ, ∀ x ∈ l, x ≤ l.foldl max a := by
  induction l with
  | nil => intro a x hx; simp at hx
  | cons c t ih =>
    intro a x hx
    simp only [List.foldl_cons]
    rcases List.mem_cons.mp hx with h | h
    · subst h
      exact le_trans (le_max_right a x) (foldl_max_le_init t (max a x))
    · exact ih (max a c) x h

theorem foldl_max_mem (l : List ℚ) : ∀ a : ℚ, l.foldl max a = a ∨ l.foldl max a ∈ l := by
  induction l with
  | nil => intro a; exact Or.inl rfl
  | cons c t ih =>
    intro a
    simp only [List.foldl_cons]
    rcases ih (max a c) with h | h
    · rcases max_choice a c with hm | hm
      · exact Or.inl (h.trans hm)
      · exact Or.inr (List.mem_cons.mpr (Or.inl (h.trans hm)))
    · exact Or.inr (List.mem_cons.mpr (Or.inr h))

theorem listMin_mem (l : List ℚ) (h : ¬ l = []) : listMin l ∈ l := by
  cases l with
  | nil => exact absurd rfl h
  | cons t ts =>
    rcases foldl_min_mem ts t with h1 | h1
    · exact List.mem_cons.mpr (Or.inl h1)
    · exact List.mem_cons.mpr (Or.inr h1)

theorem listMin_le (l : List ℚ) : ∀ x ∈ l, listMin l ≤ x := by
  cases l with
  | nil => intro x hx; simp at hx
  | cons t ts =>
    intro x hx
    rcases List.mem_cons.mp hx with h1 | h1
    · subst h1; exact foldl_min_le_init ts x
    · exact foldl_min_le_mem ts t x h1

theorem listMax_mem (l : List ℚ) (h : ¬ l = []) : listMax l ∈ l := by
  cases l with
  | nil => exact absurd rfl h
  | cons t ts =>
    rcases foldl_max_mem ts t with h1 | h1
    · exact List.mem_cons.mpr (Or.inl h1)
    · exact List.mem_cons.mpr (Or.inr h1)

theorem listMax_le (l : List ℚ) : ∀ x ∈ l, x ≤ listMax l := by
  cases l with
  | nil => intro x hx; simp at hx
  | cons t ts =>
    intro x hx
    rcases List.mem_cons.mp hx with h1 | h1
    · subst h1; exact foldl_max_le_init ts x
    · exact foldl_max_le_mem ts t x h1

theorem roleStats_spec (l : List ℚ) (h : ¬ l = []) :
    (roleStats l).total_requests = l.length
    ∧ (roleStats l).total_time_seconds = pyRound3 l.sum
    ∧ (roleStats l).average_time_seconds = pyRound3 (l.sum / (l.length : ℚ))
    ∧ (roleStats l).min_time_seconds ∈ l
    ∧ (∀ x ∈ l, (roleStats l).min_time_seconds ≤ x)
    ∧ (roleStats l).max_time_seconds ∈ l
    ∧ (∀ x ∈ l, x ≤ (roleStats l).max_time_seconds) := by
  have he : l.isEmpty = false := by
    cases l with
    | nil => exact absurd rfl h
    | cons t ts => rfl
  refine ⟨rfl, ?_, ?_, ?_, ?_, ?_, ?_⟩
  · simp [roleStats, he]
  · simp [roleStats, he]
  · simp only [roleStats, he, Bool.false_eq_true, if_false]
    exact listMin_mem l h
  · simp only [roleStats, he, Bool.false_eq_true, if_false]
    exact listMin_le l
  · simp only [roleStats, he, Bool.false_eq_true, if_false]
    exact listMax_mem l h
  · simp only [roleStats, he, Bool.false_eq_true, if_false]
    exact listMax_le l

/-- A history whose user-agent entries carry the response times
0.5, 1.2 and 0.3, used for the concrete instance of the timing-statistics
property. -/
def sampleHistory : List Turn :=
  [ { speaker := Speaker.user_agent, message := "m1", timestamp := "t1"
    , response_time_seconds := some "0.5" }
  , { speaker := Speaker.user_agent, message := "m2", timestamp := "t2"
    , response_time_seconds := some "1.2" }
  , { speaker := Speaker.user_agent, message := "m3", timestamp := "t3"
    , response_time_seconds := some "0.3" } ]

/-- A history whose chat-agent entries carry the response times
0.5, 1.2 and 0.3. -/
def sampleHistoryChat : List Turn :=
  [ { speaker := Speaker.chat_agent, message := "m1", timestamp := "t1"
    , response_time_seconds := some "0.5" }
  , { speaker := Speaker.chat_agent, message := "m2", timestamp := "t2"
    , response_time_seconds := some "1.2" }
  , { speaker := Speaker.chat_agent, message := "m3", timestamp := "t3"
    , response_time_seconds := some "0.3" } ]

theorem pyFloat_05 : pyFloat? "0.5" = some (1/2 : ℚ) := by
  unfold pyFloat?
  rw [if_neg (by decide)]
  rw [show parseParts? "0.5".toList = some (0, 5, 1) by decide]
  simp only [Option.map_some', Option.some.injEq, ratOfParts]
  norm_num

theorem pyFloat_12 : pyFloat? "1.2" = some (6/5 : ℚ) := by
  unfold pyFloat?
  rw [if_neg (by decide)]
  rw [show parseParts? "1.2".toList = some (1, 2, 1) by decide]
  simp only [Option.map_some', Option.some.injEq, ratOfParts]
  norm_num

theorem pyFloat_03 : pyFloat? "0.3" = some (3/10 : ℚ) := by
  unfold pyFloat?
  rw [if_neg (by decide)]
  rw [show parseParts? "0.3".toList = some (0, 3, 1) by decide]
  simp only [Option.map_some', Option.some.injEq, ratOfParts]
  norm_num

theorem roleTimes_sampleHistory :
    roleTimes Speaker.user_agent sampleHistory = [1/2, 6/5, 3/10] := by
  simp [roleTimes, sampleHistory, pyFloat_05, pyFloat_12, pyFloat_03]

theorem roleTimes_sampleHistoryChat :
    roleTimes Speaker.chat_agent sampleHistoryChat = [1/2, 6/5, 3/10] := by
  simp [roleTimes, sampleHistoryChat, pyFloat_05, pyFloat_12, pyFloat_03]

theorem calc_user_eq (history : List Turn) :
    (calculate_timing_stats history).user_agent
      = roleStats (roleTimes Speaker.user_agent history) := by
  simp [calculate_timing_stats, collectTimes_eq]

theorem calc_chat_eq (history : List Turn) :
    (calculate_timing_stats history).chat_agent
      = roleStats (roleTimes Speaker.chat_agent history) := by
  simp [calculate_timing_stats, collectTimes_eq]

theorem calc_total_eq (history : List Turn) :
    (calculate_timing_stats history).total_requests
      = (roleTimes Speaker.user_agent history).length
        + (roleTimes Speaker.chat_agent history).length := by
  simp [calculate_timing_stats, collectTimes_eq]

theorem roleStats_sample :
    (roleStats ([1/2, 6/5, 3/10] : List ℚ)).average_time_seconds = pyRound3 (2/3)
    ∧ (roleStats ([1/2, 6/5, 3/10] : List ℚ)).min_time_seconds = 3/10
    ∧ (roleStats ([1/2, 6/5, 3/10] : List ℚ)).max_time_seconds = 6/5 := by
  refine ⟨?_, ?_, ?_⟩
  · have hsum : (([1/2, 6/5, 3/10] : List ℚ).sum
        / ((([1/2, 6/5, 3/10] : List ℚ).length : Nat) : ℚ)) = 2/3 := by
      norm_num
    simp only [roleStats]
    rw [if_neg (by decide), hsum]
  · simp only [roleStats]
    rw [if_neg (by decide)]
    show ([6/5, 3/10] : List ℚ).foldl min (1/2) = 3/10
    simp only [List.foldl_cons, List.foldl_nil]
    rw [show min (1/2 : ℚ) (6/5) = 1/2 from min_eq_left (by norm_num)]
    rw [show min (1/2 : ℚ) (3/10) = 3/10 from min_eq_right (by norm_num)]
  · simp only [roleStats]
    rw [if_neg (by decide)]
    show ([6/5, 3/10] : List ℚ).foldl max (1/2) = 6/5
    simp only [List.foldl_cons, List.foldl_nil]
    rw [show max (1/2 : ℚ) (6/5) = 6/5 from max_eq_right (by norm_num)]
    rw [show max (6/5 : ℚ) (3/10) = 6/5 from max_eq_left (by norm_num)]

/-- C9: for every conversation history, the per-role timing statistics
satisfy: the count is the number of that role's entries with a parseable
response time; total and average are `round(sum, 3)` and
`round(sum/count, 3)`; min and max are the smallest and largest such times.
In particular, for response times [0.5, 1.2, 0.3] of one role the average is
`round(2.0/3, 3)`, the min is 0.3 and the max is 1.2 (both roles checked). -/
theorem c9_timing_stats (history : List Turn) :
    ((calculate_timing_stats history).user_agent.total_requests
        = (roleTimes Speaker.user_agent history).length)
    ∧ ((calculate_timing_stats history).chat_agent.total_requests
        = (roleTimes Speaker.chat_agent history).length)
    ∧ ((calculate_timing_stats history).total_requests
        = (roleTimes Speaker.user_agent history).length
          + (roleTimes Speaker.chat_agent history).length)
    ∧ (¬ roleTimes Speaker.user_agent history = [] →
        ((calculate_timing_stats history).user_agent.total_time_seconds
            = pyRound3 (roleTimes Speaker.user_agent history).sum
         ∧ (calculate_timing_stats history).user_agent.average_time_seconds
            = pyRound3 ((roleTimes Speaker.user_agent history).sum
                / ((roleTimes Speaker.user_agent history).length : ℚ))
         ∧ (calculate_timing_stats history).user_agent.min_time_seconds
            ∈ roleTimes Speaker.user_agent history
         ∧ (∀ x ∈ roleTimes Speaker.user_agent history,
            (calculate_timing_stats history).user_agent.min_time_seconds ≤ x)
         ∧ (calculate_timing_stats history).user_agent.max_time_seconds
            ∈ roleTimes Speaker.user_agent history
         ∧ (∀ x ∈ roleTimes Speaker.user_agent history,
            x ≤ (calculate_timing_stats history).user_agent.max_time_seconds)))
    ∧ (¬ roleTimes Speaker.chat_agent history = [] →
        ((calculate_timing_stats history).chat_agent.total_time_seconds
            = pyRound3 (roleTimes Speaker.chat_agent history).sum
         ∧ (calculate_timing_stats history).chat_agent.average_time_seconds
            = pyRound3 ((roleTimes Speaker.chat_agent history).sum
                / ((roleTimes Speaker.chat_agent history).length : ℚ))
         ∧ (calculate_timing_stats history).chat_agent.min_time_seconds
            ∈ roleTimes Speaker.chat_agent history
         ∧ (∀ x ∈ roleTimes Speaker.chat_agent history,
            (calculate_timing_stats history).chat_agent.min_time_seconds ≤ x)
         ∧ (calculate_timing_stats history).chat_agent.max_time_seconds
            ∈ roleTimes Speaker.chat_agent history
         ∧ (∀ x ∈ roleTimes Speaker.chat_agent history,
            x ≤ (calculate_timing_stats history).chat_agent.max_time_seconds)))
    ∧ ((calculate_timing_stats sampleHistory).user_agent.average_time_seconds
          = pyRound3 (2 / 3)
        ∧ (calculate_timing_stats sampleHistory).user_agent.min_time_seconds = 3 / 10
        ∧ (calculate_timing_stats sampleHistory).user_agent.max_time_seconds = 6 / 5
        ∧ (calculate_timing_stats sampleHistoryChat).chat_agent.average_time_seconds
          = pyRound3 (2 / 3)
        ∧ (calculate_timing_stats sampleHistoryChat).chat_agent.min_time_seconds = 3 / 10
        ∧ (calculate_timing_stats sampleHistoryChat).chat_agent.max_time_seconds = 6 / 5) := by
  refine ⟨by rw [calc_user_eq]; rfl, by rw [calc_chat_eq]; rfl, calc_total_eq history,
          ?_, ?_, ?_⟩
  · intro hne
    rw [calc_user_eq]
    obtain ⟨_, h2, h3, h4, h5, h6, h7⟩ := roleStats_spec _ hne
    exact ⟨h2, h3, h4, h5, h6, h7⟩
  · intro hne
    rw [calc_chat_eq]
    obtain ⟨_, h2, h3, h4, h5, h6, h7⟩ := roleStats_spec _ hne
    exact ⟨h2, h3, h4, h5, h6, h7⟩
  · rw [calc_user_eq, calc_chat_eq, roleTimes_sampleHistory, roleTimes_sampleHistoryChat]
    obtain ⟨h1, h2, h3⟩ := roleStats_sample
    exact ⟨h1, h2, h3, h1, h2, h3⟩

/-- Witness for the timing-statistics theorem: the nonempty-role hypotheses
are discharged at the concrete histories with times [0.5, 1.2, 0.3]. -/
theorem c9_timing_stats_witness :
    (¬ roleTimes Speaker.user_agent sampleHistory = [])
    ∧ (calculate_timing_stats sampleHistory).user_agent.total_time_seconds
        = pyRound3 (roleTimes Speaker.user_agent sampleHistory).sum
    ∧ (¬ roleTimes Speaker.chat_agent sampleHistoryChat = [])
    ∧ (calculate_timing_stats sampleHistoryChat).chat_agent.total_time_seconds
        = pyRound3 (roleTimes Speaker.chat_agent sampleHistoryChat).sum :=
  ⟨by simp [roleTimes_sampleHistory],
   ((c9_timing_stats sampleHistory).2.2.2.1 (by simp [roleTimes_sampleHistory])).1,
   by simp [roleTimes_sampleHistoryChat],
   ((c9_timing_stats sampleHistoryChat).2.2.2.2.1
     (by simp [roleTimes_sampleHistoryChat])).1⟩

/-- A fresh user agent with an empty history and a configured client, as
constructed at the start of every `/simulate` run. -/
def sampleUA : UserAgent :=
  { agent_id := "u1", personality_prompt := "p", problem_roleplay_prompt := "r"
  , base_prompt := "b", model := "m", conversation_history := []
  , clientAvailable := true }

/-- A chat agent with a configured client and the given predefined
greeting. -/
def sampleCA (greeting : Option String) : ChatAgent :=
  { agent_id := "c1", system_prompt := "s", initial_message := greeting
  , model := "m", clientAvailable := true }

/-- An environment whose generation oracles are the two given functions and
whose measured-latency and timestamp strings are constants. -/
def sampleEnv (ug cg : Nat → Option String) : Env :=
  { userGen := ug, chatGen := cg, userTime := fun _ => "0.1"
  , chatTime := fun _ => "0.2", stamp := fun _ => "ts" }

/-- C1 counterexample: with an explicit opening message (`"Hi"`, recorded as
a Responder turn), the first loop turn is again the Responder's
(`turn_count % 2 == 0` holds at `turn_count = 0` because the parity target
is `0` for a truthy `initial_message`), so the history starts with two
consecutive Responder turns and the speakers do not strictly alternate. -/
theorem c1_counterexample :
    ((start_conversation sampleUA (sampleCA none)
        (sampleEnv (fun _ => some "u") (fun _ => some "c"))
        (some "Hi") 2).2.1.conversation_history.map Turn.speaker
      = [Speaker.chat_agent, Speaker.chat_agent, Speaker.user_agent])
    ∧ ¬ List.Chain' (fun a b => a ≠ b)
        ((start_conversation sampleUA (sampleCA none)
            (sampleEnv (fun _ => some "u") (fun _ => some "c"))
            (some "Hi") 2).2.1.conversation_history.map Turn.speaker) := by
  have h : (start_conversation sampleUA (sampleCA none)
      (sampleEnv (fun _ => some "u") (fun _ => some "c"))
      (some "Hi") 2).2.1.conversation_history.map Turn.speaker
      = [Speaker.chat_agent, Speaker.chat_agent, Speaker.user_agent] := by decide
  refine ⟨h, ?_⟩
  rw [h]
  simp [List.chain'_cons]

/-- C2 counterexample: in a run whose first chat-agent generation call
fails, the loop aborts — yet the returned result has `success = true` and
the history is persisted; the claim's `success == false` is wrong for
mid-loop failures. -/
theorem c2_counterexample :
    ((start_conversation sampleUA (sampleCA (some "greet"))
        (sampleEnv (fun _ => some "u") (fun _ => none)) none 4).2.2
      = ExitKind.chatFailure)
    ∧ ((start_conversation sampleUA (sampleCA (some "greet"))
        (sampleEnv (fun _ => some "u") (fun _ => none)) none 4).1.success = true)
    ∧ ((start_conversation sampleUA (sampleCA (some "greet"))
        (sampleEnv (fun _ => some "u") (fun _ => none)) none 4).1.saved.isSome
      = true) := by
  decide

/-- C3 counterexample: a completed greeting-opened run with `max_turns = 2`
and every generation successful ends with three history entries but
`turn_count = 2`: the opening turn is appended without incrementing the
counter, so `len(history) ≠ turn_count`. -/
theorem c3_counterexample :
    ((start_conversation sampleUA (sampleCA (some "greet"))
        (sampleEnv (fun _ => some "u") (fun _ => some "c")) none 2).2.1.conversation_history.length
      = 3)
    ∧ ((start_conversation sampleUA (sampleCA (some "greet"))
        (sampleEnv (fun _ => some "u") (fun _ => some "c")) none 2).1.turn_count = 2)
    ∧ ((start_conversation sampleUA (sampleCA (some "greet"))
        (sampleEnv (fun _ => some "u") (fun _ => some "c")) none 2).2.2
      = ExitKind.budget) := by
  decide

/-- C4 counterexample: the Initiator's loop turn contains the closing phrase
and the run terminates naturally, but the bonus Responder generation fails
(`final_response` falsy), so zero — not exactly one — further Responder
turns are appended: the history ends with the Initiator's goodbye. -/
theorem c4_counterexample :
    should_end_conversation "ok thank you, goodbye." = true
    ∧ ((start_conversation sampleUA (sampleCA (some "greet"))
        (sampleEnv (fun _ => some "ok thank you, goodbye.") (fun _ => none)) none 4).2.2
      = ExitKind.natural)
    ∧ ((start_conversation sampleUA (sampleCA (some "greet"))
        (sampleEnv (fun _ => some "ok thank you, goodbye.") (fun _ => none)) none 4).2.1.conversation_history.map
          Turn.speaker
      = [Speaker.chat_agent, Speaker.user_agent]) := by
  decide

/-- C6 counterexample: greeting-opened run with `max_turns = 4` in which the
closing phrase triggers at the Initiator's second loop turn and the bonus
Responder turn succeeds: the run reports `turn_count = 3`, not 4 and not the
claimed 5. -/
theorem c6_counterexample :
    ((start_conversation sampleUA (sampleCA (some "greet"))
        (sampleEnv (fun i => if i = 1 then some "ok thank you, goodbye." else some "u")
          (fun _ => some "c")) none 4).1.turn_count = 3)
    ∧ ((start_conversation sampleUA (sampleCA (some "greet"))
        (sampleEnv (fun i => if i = 1 then some "ok thank you, goodbye." else some "u")
          (fun _ => some "c")) none 4).2.2 = ExitKind.natural)
    ∧ ¬ ((start_conversation sampleUA (sampleCA (some "greet"))
        (sampleEnv (fun i => if i = 1 then some "ok thank you, goodbye." else some "u")
          (fun _ => some "c")) none 4).1.turn_count = 4)
    ∧ ¬ ((start_conversation sampleUA (sampleCA (some "greet"))
        (sampleEnv (fun i => if i = 1 then some "ok thank you, goodbye." else some "u")
          (fun _ => some "c")) none 4).1.turn_count = 5) := by
  decide

theorem parityTarget_lt_two (im : Option String) :
    (if truthy im then 0 else 1) < 2 := by
  cases truthy im <;> simp

theorem loop_result_eta (env : Env) (ca : ChatAgent) (p mt fuel : Nat)
    (st : LoopState) :
    conversationLoop env ca p mt fuel st
      = ((conversationLoop env ca p mt fuel st).1,
         (conversationLoop env ca p mt fuel st).2) := rfl

/-- C2 (amended): any single generation failure is fatal to the run with no
retry — the iteration that observes a failed chat-agent or user-agent call
returns at once with the state it had (last two conjuncts).  A failure
inside the loop still persists the accumulated history via
`save_conversation`, but the returned result then has `success = true`, not
`false`; `success = false` occurs exactly on a failed bootstrap Initiator
call, and that path persists nothing (`saved = none`, history unchanged). -/
theorem c2_amended :
    (∀ env ua ca im mt,
        (start_conversation ua ca env im mt).2.2 = ExitKind.bootstrapFailure →
          (start_conversation ua ca env im mt).1.success = false
          ∧ (start_conversation ua ca env im mt).1.saved = none
          ∧ (start_conversation ua ca env im mt).2.1 = ua)
    ∧ (∀ env ua ca im mt,
        ¬ (start_conversation ua ca env im mt).2.2 = ExitKind.bootstrapFailure →
          (start_conversation ua ca env im mt).1.success = true
          ∧ (start_conversation ua ca env im mt).1.saved
              = some (save_conversation (start_conversation ua ca env im mt).2.1))
    ∧ (∀ env ca p mt fuel st,
        st.turn_count < mt → st.turn_count % 2 = p →
        ChatAgent.generate_response ca env st.cIdx = none →
          conversationLoop env ca p mt (fuel + 1) st = (st, ExitKind.chatFailure))
    ∧ (∀ env ca p mt fuel st ua1,
        st.turn_count < mt → ¬ st.turn_count % 2 = p →
        UserAgent.generate_response st.ua env st.uIdx = (none, ua1) →
          conversationLoop env ca p mt (fuel + 1) st = (st, ExitKind.userFailure)) := by
  refine ⟨?_, ?_, ?_, ?_⟩
  · intro env ua ca im mt h
    rcases hro : resolveOpening im ca with _ | m
    · rcases hgen : UserAgent.generate_response ua env 0 with ⟨o, ua1⟩
      cases o with
      | none =>
        simp only [start_conversation, hro, hgen, create_result_dict]
        exact ⟨by trivial, by trivial, by trivial⟩
      | some m =>
        simp only [start_conversation, hro, hgen] at h
        obtain ⟨hb, _⟩ := conversationLoop_spec env ca _ mt (parityTarget_lt_two im) mt
          { ua := patchLast ua1 (env.userTime 0), turn_count := 1, uIdx := 1
          , cIdx := 0, last_message := m } _ _ (loop_result_eta ..)
        exact absurd h hb
    · simp only [start_conversation, hro] at h
      obtain ⟨hb, _⟩ := conversationLoop_spec env ca _ mt (parityTarget_lt_two im) mt
        { ua := appendTurn ua Speaker.chat_agent m
            (env.stamp ua.conversation_history.length) (some "0.0")
        , turn_count := 0, uIdx := 0, cIdx := 0, last_message := m } _ _
        (loop_result_eta ..)
      exact absurd h hb
  · intro env ua ca im mt h
    rcases hro : resolveOpening im ca with _ | m
    · rcases hgen : UserAgent.generate_response ua env 0 with ⟨o, ua1⟩
      cases o with
      | none =>
        simp only [start_conversation, hro, hgen] at h
        exact (h (by trivial)).elim
      | some m =>
        simp only [start_conversation, hro, hgen, create_result_dict]
        exact ⟨by trivial, by trivial⟩
    · simp only [start_conversation, hro, create_result_dict]
      exact ⟨by trivial, by trivial⟩
  · intro env ca p mt fuel st hm hpar hcg
    exact conversationLoop_chatFailure env ca p mt fuel st hm hpar hcg
  · intro env ca p mt fuel st ua1 hm hpar hgen
    exact conversationLoop_userFailure env ca p mt fuel st ua1 hm hpar hgen

/-- Witness for the amended failure-semantics theorem: a concrete run whose
bootstrap generation fails reports `success = false`; a concrete
greeting-opened run whose first chat-agent generation fails reports
`success = true`; and a concrete loop state whose chat-agent (resp.
user-agent) generation fails exits immediately with the corresponding
failure tag. -/
theorem c2_amended_witness :
    ((start_conversation sampleUA (sampleCA none)
        (sampleEnv (fun _ => none) (fun _ => none)) none 4).1.success = false)
    ∧ ((start_conversation sampleUA (sampleCA (some "greet"))
        (sampleEnv (fun _ => some "u") (fun _ => none)) none 4).1.success = true)
    ∧ (conversationLoop (sampleEnv (fun _ => some "u") (fun _ => none))
        (sampleCA (some "greet")) 1 4 (0 + 1)
        { ua := sampleUA, turn_count := 1, uIdx := 0, cIdx := 0, last_message := "m" }
      = ({ ua := sampleUA, turn_count := 1, uIdx := 0, cIdx := 0, last_message := "m" },
         ExitKind.chatFailure))
    ∧ (conversationLoop (sampleEnv (fun _ => none) (fun _ => some "c"))
        (sampleCA (some "greet")) 1 4 (0 + 1)
        { ua := sampleUA, turn_count := 2, uIdx := 0, cIdx := 0, last_message := "m" }
      = ({ ua := sampleUA, turn_count := 2, uIdx := 0, cIdx := 0, last_message := "m" },
         ExitKind.userFailure)) :=
  ⟨(c2_amended.1 (sampleEnv (fun _ => none) (fun _ => none)) sampleUA (sampleCA none)
      none 4 (by decide)).1,
   (c2_amended.2.1 (sampleEnv (fun _ => some "u") (fun _ => none)) sampleUA
      (sampleCA (some "greet")) none 4 (by decide)).1,
   c2_amended.2.2.1 (sampleEnv (fun _ => some "u") (fun _ => none))
     (sampleCA (some "greet")) 1 4 0
     { ua := sampleUA, turn_count := 1, uIdx := 0, cIdx := 0, last_message := "m" }
     (by decide) (by decide) (by decide),
   c2_amended.2.2.2 (sampleEnv (fun _ => none) (fun _ => some "c"))
     (sampleCA (some "greet")) 1 4 0
     { ua := sampleUA, turn_count := 2, uIdx := 0, cIdx := 0, last_message := "m" }
     sampleUA (by decide) (by decide) (by decide)⟩

/-- C3 (amended): for every run started with an empty history, the final
history length equals the reported `turn_count` plus one when an opening
utterance was recorded (the opening turn never increments the counter) plus
one more when the run ended through the closing-phrase branch (the goodbye
iteration's own increment is skipped by the `break`).  The claimed equality
`len(history) = turn_count` therefore holds only for runs with no opening
utterance that do not end in the closing-phrase branch. -/
theorem c3_amended (env : Env) (ua : UserAgent) (ca : ChatAgent)
    (im : Option String) (mt : Nat) (h0 : ua.conversation_history = []) :
    (start_conversation ua ca env im mt).2.1.conversation_history.length
      = (start_conversation ua ca env im mt).1.turn_count
        + (if (resolveOpening im ca).isSome then 1 else 0)
        + (if (start_conversation ua ca env im mt).2.2 = ExitKind.natural
           then 1 else 0) := by
  rcases hro : resolveOpening im ca with _ | m
  · rcases hgen : UserAgent.generate_response ua env 0 with ⟨o, ua1⟩
    cases o with
    | none =>
      simp only [start_conversation, hro, hgen, create_result_dict]
      simp [h0]
    | some m =>
      have hua1 := generate_response_some ua env 0 m ua1 hgen
      have hpatch := patchLast_concat ua1 ua.conversation_history
        { speaker := Speaker.user_agent, message := m
        , timestamp := env.stamp ua.conversation_history.length
        , response_time_seconds := none }
        (env.userTime 0) (by rw [hua1])
      have hplen : (patchLast ua1 (env.userTime 0)).conversation_history.length = 1 := by
        rw [hpatch]
        simp [h0]
      simp only [start_conversation, hro, hgen, create_result_dict]
      obtain ⟨_, hlen, _, _, _⟩ := conversationLoop_spec env ca _ mt
        (parityTarget_lt_two im) mt
        { ua := patchLast ua1 (env.userTime 0), turn_count := 1, uIdx := 1
        , cIdx := 0, last_message := m } _ _ (loop_result_eta ..)
      simp only [hplen] at hlen
      simp only [Option.isSome_none]
      by_cases hek :
          (conversationLoop env ca (if truthy im then 0 else 1) mt mt
            { ua := patchLast ua1 (env.userTime 0), turn_count := 1, uIdx := 1
            , cIdx := 0, last_message := m }).2
          = ExitKind.natural <;>
        simp [hek] at hlen ⊢ <;> omega
  · have hl0 : (appendTurn ua Speaker.chat_agent m
        (env.stamp ua.conversation_history.length)
        (some "0.0")).conversation_history.length = 1 := by
      simp [appendTurn, h0]
    simp only [start_conversation, hro, create_result_dict]
    obtain ⟨_, hlen, _, _, _⟩ := conversationLoop_spec env ca _ mt
      (parityTarget_lt_two im) mt
      { ua := appendTurn ua Speaker.chat_agent m
          (env.stamp ua.conversation_history.length) (some "0.0")
      , turn_count := 0, uIdx := 0, cIdx := 0, last_message := m } _ _
      (loop_result_eta ..)
    simp only [hl0] at hlen
    simp only [Option.isSome_some]
    by_cases hek :
        (conversationLoop env ca (if truthy im then 0 else 1) mt mt
          { ua := appendTurn ua Speaker.chat_agent m
              (env.stamp ua.conversation_history.length) (some "0.0")
          , turn_count := 0, uIdx := 0, cIdx := 0, last_message := m }).2
        = ExitKind.natural <;>
      simp [hek] at hlen ⊢ <;> omega

/-- Witness for the amended length accounting: a concrete greeting-opened
budget-exhausted run has 3 entries and `turn_count = 2` (offset 1 for the
opening, 0 for the natural end). -/
theorem c3_amended_witness :
    sampleUA.conversation_history = []
    ∧ (start_conversation sampleUA (sampleCA (some "greet"))
        (sampleEnv (fun _ => some "u") (fun _ => some "c")) none 2).2.1.conversation_history.length
      = (start_conversation sampleUA (sampleCA (some "greet"))
          (sampleEnv (fun _ => some "u") (fun _ => some "c")) none 2).1.turn_count
        + (if (resolveOpening none (sampleCA (some "greet"))).isSome then 1 else 0)
        + (if (start_conversation sampleUA (sampleCA (some "greet"))
              (sampleEnv (fun _ => some "u") (fun _ => some "c")) none 2).2.2
              = ExitKind.natural
           then 1 else 0) :=
  ⟨rfl, c3_amended (sampleEnv (fun _ => some "u") (fun _ => some "c")) sampleUA
    (sampleCA (some "greet")) none 2 rfl⟩

theorem isPrefixList_iff (n : List Char) :
    ∀ h : List Char, isPrefixList n h = true ↔ ∃ post, h = n ++ post := by
  induction n with
  | nil =>
    intro h
    constructor
    · intro _
      exact ⟨h, rfl⟩
    · intro _
      rfl
  | cons a as ih =>
    intro h
    cases h with
    | nil =>
      constructor
      · intro hfalse
        simp [isPrefixList] at hfalse
      · rintro ⟨post, hpost⟩
        simp at hpost
    | cons b bs =>
      constructor
      · intro hpre
        simp only [isPrefixList, Bool.and_eq_true, beq_iff_eq] at hpre
        obtain ⟨hab, hrest⟩ := hpre
        obtain ⟨post, hpost⟩ := (ih bs).mp hrest
        subst hab
        exact ⟨post, by simp [hpost]⟩
      · rintro ⟨post, hpost⟩
        rw [List.cons_append] at hpost
        injection hpost with h1 h2
        simp only [isPrefixList, Bool.and_eq_true, beq_iff_eq]
        exact ⟨h1.symm, (ih bs).mpr ⟨post, h2⟩⟩

theorem containsSub_iff (n : List Char) :
    ∀ h : List Char, containsSub n h = true ↔ ∃ pre post, h = pre ++ n ++ post := by
  intro h
  induction h with
  | nil =>
    simp only [containsSub]
    rw [isPrefixList_iff n []]
    constructor
    · rintro ⟨post, hpost⟩
      exact ⟨[], post, by simpa using hpost⟩
    · rintro ⟨pre, post, hpost⟩
      obtain ⟨h1, h2⟩ := List.append_eq_nil.mp hpost.symm
      obtain ⟨h3, h4⟩ := List.append_eq_nil.mp h1
      exact ⟨[], by simp [h4]⟩
  | cons c rest ih =>
    simp only [containsSub, Bool.or_eq_true]
    rw [isPrefixList_iff n (c :: rest), ih]
    constructor
    · rintro (⟨post, hpost⟩ | ⟨pre, post, hpost⟩)
      · exact ⟨[], post, by simpa using hpost⟩
      · exact ⟨c :: pre, post, by simp [hpost]⟩
    · rintro ⟨pre, post, hpost⟩
      cases pre with
      | nil => exact Or.inl ⟨post, by simpa using hpost⟩
      | cons p ps =>
        right
        rw [List.cons_append, List.cons_append] at hpost
        injection hpost with h1 h2
        exact ⟨ps, post, h2⟩

/-- C4 (amended): a natural end is detected exactly when the fixed closing
phrase occurs as a substring of the lower-cased latest Initiator message;
when it is detected on an Initiator loop turn, the run terminates at that
iteration with the `natural` exit, and one further Responder turn is
appended when the closing generation returns truthy text — but zero are
appended when that generation fails or returns the empty string (the run
still ends "naturally").  A `natural` exit always leaves a history ending in
the Initiator's goodbye, optionally followed by one Responder turn, and a
`budget` exit means the turn budget was exhausted; together with the failure
exits of the failure-semantics theorem, these are the only termination
triggers (an explicit stop request cannot fire in this sequential model). -/
theorem c4_amended :
    (∀ m : String,
        should_end_conversation m = true
          ↔ ∃ pre post,
              m.toList.map Char.toLower = pre ++ ending_phrase.toList ++ post)
    ∧ (∀ env ca p mt fuel st r fr ua1,
        st.turn_count < mt → ¬ st.turn_count % 2 = p →
        UserAgent.generate_response st.ua env st.uIdx = (some r, ua1) →
        should_end_conversation r = true →
        ChatAgent.generate_response ca env st.cIdx = some fr → ¬ fr = "" →
          conversationLoop env ca p mt (fuel + 1) st
            = (goodbyeFinal env st r fr ua1, ExitKind.natural)
          ∧ (goodbyeFinal env st r fr ua1).ua.conversation_history.length
              = st.ua.conversation_history.length + 2
          ∧ (goodbyeFinal env st r fr ua1).turn_count = st.turn_count + 1)
    ∧ (∀ env ca p mt fuel st r ua1,
        st.turn_count < mt → ¬ st.turn_count % 2 = p →
        UserAgent.generate_response st.ua env st.uIdx = (some r, ua1) →
        should_end_conversation r = true →
        (ChatAgent.generate_response ca env st.cIdx = none
          ∨ ChatAgent.generate_response ca env st.cIdx = some "") →
          conversationLoop env ca p mt (fuel + 1) st
            = (goodbyeNoFinal env st r ua1, ExitKind.natural)
          ∧ (goodbyeNoFinal env st r ua1).ua.conversation_history.length
              = st.ua.conversation_history.length + 1
          ∧ (goodbyeNoFinal env st r ua1).turn_count = st.turn_count)
    ∧ (∀ env ua ca im mt,
        (start_conversation ua ca env im mt).2.2 = ExitKind.natural →
          endsGoodbye (start_conversation ua ca env im mt).2.1.conversation_history)
    ∧ (∀ env ua ca im mt,
        (start_conversation ua ca env im mt).2.2 = ExitKind.budget →
          mt ≤ (start_conversation ua ca env im mt).1.turn_count) := by
  refine ⟨?_, ?_, ?_, ?_, ?_⟩
  · intro m
    exact containsSub_iff ending_phrase.toList (m.toList.map Char.toLower)
  · intro env ca p mt fuel st r fr ua1 hm hpar hgen hend hcg hfr
    have hua1 := generate_response_some st.ua env st.uIdx r ua1 hgen
    have hpatch := patchLastIfUser_concat ua1 st.ua.conversation_history
      { speaker := Speaker.user_agent, message := r
      , timestamp := env.stamp st.ua.conversation_history.length
      , response_time_seconds := none }
      (env.userTime st.uIdx) (by rw [hua1]) rfl
    refine ⟨conversationLoop_goodbyeFinal env ca p mt fuel st r fr ua1
      hm hpar hgen hend hcg hfr, ?_, rfl⟩
    show (appendTurn (patchLastIfUser ua1 (env.userTime st.uIdx))
        Speaker.chat_agent fr _ _).conversation_history.length = _
    rw [appendTurn, hpatch]
    simp
  · intro env ca p mt fuel st r ua1 hm hpar hgen hend hcg
    have hua1 := generate_response_some st.ua env st.uIdx r ua1 hgen
    have hpatch := patchLastIfUser_concat ua1 st.ua.conversation_history
      { speaker := Speaker.user_agent, message := r
      , timestamp := env.stamp st.ua.conversation_history.length
      , response_time_seconds := none }
      (env.userTime st.uIdx) (by rw [hua1]) rfl
    have hlen : (goodbyeNoFinal env st r ua1).ua.conversation_history.length
        = st.ua.conversation_history.length + 1 := by
      show (patchLastIfUser ua1 (env.userTime st.uIdx)).conversation_history.length = _
      rw [hpatch]
      simp
    rcases hcg with hcg | hcg
    · exact ⟨conversationLoop_goodbyeNone env ca p mt fuel st r ua1
        hm hpar hgen hend hcg, hlen, rfl⟩
    · exact ⟨conversationLoop_goodbyeEmpty env ca p mt fuel st r ua1
        hm hpar hgen hend hcg, hlen, rfl⟩
  · intro env ua ca im mt h
    rcases hro : resolveOpening im ca with _ | m
    · rcases hgen : UserAgent.generate_response ua env 0 with ⟨o, ua1⟩
      cases o with
      | none =>
        simp only [start_conversation, hro, hgen] at h
        exact absurd h (by decide)
      | some m =>
        simp only [start_conversation, hro, hgen] at h ⊢
        obtain ⟨_, _, _, hnat, _⟩ := conversationLoop_spec env ca _ mt
          (parityTarget_lt_two im) mt
          { ua := patchLast ua1 (env.userTime 0), turn_count := 1, uIdx := 1
          , cIdx := 0, last_message := m } _ _ (loop_result_eta ..)
        exact hnat h
    · simp only [start_conversation, hro] at h ⊢
      obtain ⟨_, _, _, hnat, _⟩ := conversationLoop_spec env ca _ mt
        (parityTarget_lt_two im) mt
        { ua := appendTurn ua Speaker.chat_agent m
            (env.stamp ua.conversation_history.length) (some "0.0")
        , turn_count := 0, uIdx := 0, cIdx := 0, last_message := m } _ _
        (loop_result_eta ..)
      exact hnat h
  · intro env ua ca im mt h
    rcases hro : resolveOpening im ca with _ | m
    · rcases hgen : UserAgent.generate_response ua env 0 with ⟨o, ua1⟩
      cases o with
      | none =>
        simp only [start_conversation, hro, hgen] at h
        exact absurd h (by decide)
      | some m =>
        simp only [start_conversation, hro, hgen, create_result_dict] at h ⊢
        obtain ⟨_, _, hbud, _, _⟩ := conversationLoop_spec env ca _ mt
          (parityTarget_lt_two im) mt
          { ua := patchLast ua1 (env.userTime 0), turn_count := 1, uIdx := 1
          , cIdx := 0, last_message := m } _ _ (loop_result_eta ..)
        exact hbud (by omega) h
    · simp only [start_conversation, hro, create_result_dict] at h ⊢
      obtain ⟨_, _, hbud, _, _⟩ := conversationLoop_spec env ca _ mt
        (parityTarget_lt_two im) mt
        { ua := appendTurn ua Speaker.chat_agent m
            (env.stamp ua.conversation_history.length) (some "0.0")
        , turn_count := 0, uIdx := 0, cIdx := 0, last_message := m } _ _
        (loop_result_eta ..)
      exact hbud (by omega) h

/-- Witness for the amended termination theorem: the phrase test fires on a
concrete goodbye message; a concrete loop state with a goodbye and a truthy
closing reply takes the one-extra-turn exit; one with a failed closing reply
takes the zero-extra-turn exit; a concrete natural-exit run ends in a
goodbye, and a concrete budget-exit run has used its whole budget. -/
theorem c4_amended_witness :
    (∃ pre post,
        "ok Thank You, Goodbye. bye".toList.map Char.toLower
          = pre ++ ending_phrase.toList ++ post)
    ∧ (conversationLoop
          (sampleEnv (fun _ => some "ok thank you, goodbye.") (fun _ => some "bye"))
          (sampleCA none) 1 4 (0 + 1)
          { ua := sampleUA, turn_count := 0, uIdx := 0, cIdx := 0, last_message := "x" }
        = (goodbyeFinal
            (sampleEnv (fun _ => some "ok thank you, goodbye.") (fun _ => some "bye"))
            { ua := sampleUA, turn_count := 0, uIdx := 0, cIdx := 0, last_message := "x" }
            "ok thank you, goodbye." "bye"
            { sampleUA with conversation_history :=
                [{ speaker := Speaker.user_agent, message := "ok thank you, goodbye."
                 , timestamp := "ts", response_time_seconds := none }] },
           ExitKind.natural))
    ∧ (conversationLoop
          (sampleEnv (fun _ => some "ok thank you, goodbye.") (fun _ => none))
          (sampleCA none) 1 4 (0 + 1)
          { ua := sampleUA, turn_count := 0, uIdx := 0, cIdx := 0, last_message := "x" }
        = (goodbyeNoFinal
            (sampleEnv (fun _ => some "ok thank you, goodbye.") (fun _ => none))
            { ua := sampleUA, turn_count := 0, uIdx := 0, cIdx := 0, last_message := "x" }
            "ok thank you, goodbye."
            { sampleUA with conversation_history :=
                [{ speaker := Speaker.user_agent, message := "ok thank you, goodbye."
                 , timestamp := "ts", response_time_seconds := none }] },
           ExitKind.natural))
    ∧ endsGoodbye (start_conversation sampleUA (sampleCA (some "greet"))
        (sampleEnv (fun _ => some "ok thank you, goodbye.") (fun _ => none))
        none 4).2.1.conversation_history
    ∧ 2 ≤ (start_conversation sampleUA (sampleCA (some "greet"))
        (sampleEnv (fun _ => some "u") (fun _ => some "c")) none 2).1.turn_count :=
  ⟨(c4_amended.1 "ok Thank You, Goodbye. bye").mp (by decide),
   (c4_amended.2.1
      (sampleEnv (fun _ => some "ok thank you, goodbye.") (fun _ => some "bye"))
      (sampleCA none) 1 4 0
      { ua := sampleUA, turn_count := 0, uIdx := 0, cIdx := 0, last_message := "x" }
      "ok thank you, goodbye." "bye"
      { sampleUA with conversation_history :=
          [{ speaker := Speaker.user_agent, message := "ok thank you, goodbye."
           , timestamp := "ts", response_time_seconds := none }] }
      (by decide) (by decide) (by decide) (by decide) (by decide) (by decide)).1,
   (c4_amended.2.2.1
      (sampleEnv (fun _ => some "ok thank you, goodbye.") (fun _ => none))
      (sampleCA none) 1 4 0
      { ua := sampleUA, turn_count := 0, uIdx := 0, cIdx := 0, last_message := "x" }
      "ok thank you, goodbye."
      { sampleUA with conversation_history :=
          [{ speaker := Speaker.user_agent, message := "ok thank you, goodbye."
           , timestamp := "ts", response_time_seconds := none }] }
      (by decide) (by decide) (by decide) (by decide) (Or.inl (by decide))).1,
   c4_amended.2.2.2.1
     (sampleEnv (fun _ => some "ok thank you, goodbye.") (fun _ => none))
     sampleUA (sampleCA (some "greet")) none 4 (by decide),
   c4_amended.2.2.2.2
     (sampleEnv (fun _ => some "u") (fun _ => some "c"))
     sampleUA (sampleCA (some "greet")) none 2 (by decide)⟩

/-- C1 (amended): in every run started with an empty history, the loop-turn
owner is fixed by counter parity with the chat agent moving when
`turn_count % 2` equals `0` for a truthy explicit opening message and `1`
otherwise.  When no truthy explicit opening message is supplied (no opening,
predefined greeting, or an empty explicit message), the recorded speakers
strictly alternate over the whole history, the trailing closing-phrase
Responder turn included.  When a truthy explicit opening message is
supplied, the history starts with the Responder's opening turn, and — the
deviation from the claim — the first loop turn is again the Responder's, so
the second entry (when present) is also a Responder turn; the remainder
alternates strictly. -/
theorem c1_amended :
    (∀ env ua ca im mt, ua.conversation_history = [] → truthy im = false →
        List.Chain' (fun a b => a ≠ b)
          ((start_conversation ua ca env im mt).2.1.conversation_history.map
            Turn.speaker))
    ∧ (∀ env ua ca im mt, ua.conversation_history = [] → truthy im = true →
        ∃ rest,
          (start_conversation ua ca env im mt).2.1.conversation_history.map
              Turn.speaker
            = Speaker.chat_agent :: rest
          ∧ List.Chain' (fun a b => a ≠ b) rest
          ∧ (∀ s rest2, rest = s :: rest2 → s = Speaker.chat_agent)) := by
  constructor
  · intro env ua ca im mt h0 htr
    rcases hro : resolveOpening im ca with _ | m
    · rcases hgen : UserAgent.generate_response ua env 0 with ⟨o, ua1⟩
      cases o with
      | none =>
        simp only [start_conversation, hro, hgen]
        simp [h0]
      | some m =>
        have hua1 := generate_response_some ua env 0 m ua1 hgen
        have hpatch := patchLast_concat ua1 ua.conversation_history
          { speaker := Speaker.user_agent, message := m
          , timestamp := env.stamp ua.conversation_history.length
          , response_time_seconds := none }
          (env.userTime 0) (by rw [hua1])
        have hh : (patchLast ua1 (env.userTime 0)).conversation_history
            = [{ speaker := Speaker.user_agent, message := m
               , timestamp := env.stamp ua.conversation_history.length
               , response_time_seconds := some (env.userTime 0) }] := by
          rw [hpatch]
          simp [h0]
        simp only [start_conversation, hro, hgen, htr, Bool.false_eq_true,
          if_false]
        obtain ⟨_, _, _, _, hchain⟩ := conversationLoop_spec env ca 1 mt
          (by decide) mt
          { ua := patchLast ua1 (env.userTime 0), turn_count := 1, uIdx := 1
          , cIdx := 0, last_message := m } _ _ (loop_result_eta ..)
        obtain ⟨ext, hext, hch⟩ := hchain (by rw [hh]; simp [expectedLast])
        rw [hext, hh]
        simp only [expectedLast] at hch
        simpa using hch
    · simp only [start_conversation, hro, htr, Bool.false_eq_true, if_false]
      have hh : (appendTurn ua Speaker.chat_agent m
          (env.stamp ua.conversation_history.length)
          (some "0.0")).conversation_history
          = [{ speaker := Speaker.chat_agent, message := m
             , timestamp := env.stamp ua.conversation_history.length
             , response_time_seconds := some "0.0" }] := by
        simp [appendTurn, h0]
      obtain ⟨_, _, _, _, hchain⟩ := conversationLoop_spec env ca 1 mt
        (by decide) mt
        { ua := appendTurn ua Speaker.chat_agent m
            (env.stamp ua.conversation_history.length) (some "0.0")
        , turn_count := 0, uIdx := 0, cIdx := 0, last_message := m } _ _
        (loop_result_eta ..)
      obtain ⟨ext, hext, hch⟩ := hchain (by rw [hh]; simp [expectedLast])
      rw [hext, hh]
      simp only [expectedLast] at hch
      simpa using hch
  · intro env ua ca im mt h0 htr
    cases im with
    | none => simp [truthy] at htr
    | some m0 =>
      simp only [start_conversation, resolveOpening, htr, if_true]
      have hh : (appendTurn ua Speaker.chat_agent m0
          (env.stamp ua.conversation_history.length)
          (some "0.0")).conversation_history
          = [{ speaker := Speaker.chat_agent, message := m0
             , timestamp := env.stamp ua.conversation_history.length
             , response_time_seconds := some "0.0" }] := by
        simp [appendTurn, h0]
      cases mt with
      | zero =>
        simp only [conversationLoop]
        refine ⟨[], ?_, List.chain'_nil, ?_⟩
        · rw [hh]
          simp
        · intro s rest2 hcon
          exact absurd hcon (by simp)
      | succ k =>
        cases hcg : ChatAgent.generate_response ca env 0 with
        | none =>
          rw [conversationLoop_chatFailure env ca 0 (k + 1) k
            { ua := appendTurn ua Speaker.chat_agent m0
                (env.stamp ua.conversation_history.length) (some "0.0")
            , turn_count := 0, uIdx := 0, cIdx := 0, last_message := m0 }
            (Nat.succ_pos k) rfl hcg]
          refine ⟨[], ?_, List.chain'_nil, ?_⟩
          · rw [hh]
            simp
          · intro s rest2 hcon
            exact absurd hcon (by simp)
        | some r =>
          rw [conversationLoop_chatStep env ca 0 (k + 1) k
            { ua := appendTurn ua Speaker.chat_agent m0
                (env.stamp ua.conversation_history.length) (some "0.0")
            , turn_count := 0, uIdx := 0, cIdx := 0, last_message := m0 }
            r (Nat.succ_pos k) rfl hcg]
          have hh1 : (chatNext env
              { ua := appendTurn ua Speaker.chat_agent m0
                  (env.stamp ua.conversation_history.length) (some "0.0")
              , turn_count := 0, uIdx := 0, cIdx := 0, last_message := m0 }
              r).ua.conversation_history
              = [{ speaker := Speaker.chat_agent, message := m0
                 , timestamp := env.stamp ua.conversation_history.length
                 , response_time_seconds := some "0.0" },
                 { speaker := Speaker.chat_agent, message := r
                 , timestamp := env.stamp (appendTurn ua Speaker.chat_agent m0
                     (env.stamp ua.conversation_history.length)
                     (some "0.0")).conversation_history.length
                 , response_time_seconds := some (env.chatTime 0) }] := by
            show (appendTurn _ Speaker.chat_agent r _ _).conversation_history = _
            rw [appendTurn, hh]
            simp [appendTurn]
          obtain ⟨_, _, _, _, hchain⟩ := conversationLoop_spec env ca 0 (k + 1)
            (by decide) k
            (chatNext env
              { ua := appendTurn ua Speaker.chat_agent m0
                  (env.stamp ua.conversation_history.length) (some "0.0")
              , turn_count := 0, uIdx := 0, cIdx := 0, last_message := m0 } r)
            _ _ (loop_result_eta ..)
          obtain ⟨ext, hext, hch⟩ := hchain (by rw [hh1]; simp [expectedLast, chatNext])
          refine ⟨Speaker.chat_agent :: ext.map Turn.speaker, ?_, ?_, ?_⟩
          · rw [hext, hh1]
            simp
          · simp only [expectedLast, chatNext] at hch
            simpa using hch
          · intro s rest2 hcon
            injection hcon with h1 _
            exact h1.symm

/-- Witness for the amended alternation theorem: a concrete greeting-opened
run alternates strictly, and a concrete run with a truthy explicit opening
message starts with a Responder turn followed only by Responder-then-
alternating turns. -/
theorem c1_amended_witness :
    (sampleUA.conversation_history = [] ∧ truthy none = false
      ∧ List.Chain' (fun a b => a ≠ b)
          ((start_conversation sampleUA (sampleCA (some "greet"))
            (sampleEnv (fun _ => some "u") (fun _ => some "c"))
            none 4).2.1.conversation_history.map Turn.speaker))
    ∧ (truthy (some "Hi") = true
      ∧ ∃ rest,
          (start_conversation sampleUA (sampleCA none)
              (sampleEnv (fun _ => some "u") (fun _ => some "c"))
              (some "Hi") 2).2.1.conversation_history.map Turn.speaker
            = Speaker.chat_agent :: rest
          ∧ List.Chain' (fun a b => a ≠ b) rest
          ∧ (∀ s rest2, rest = s :: rest2 → s = Speaker.chat_agent)) :=
  ⟨⟨rfl, rfl,
    c1_amended.1 (sampleEnv (fun _ => some "u") (fun _ => some "c")) sampleUA
      (sampleCA (some "greet")) none 4 rfl rfl⟩,
   ⟨by decide,
    c1_amended.2 (sampleEnv (fun _ => some "u") (fun _ => some "c")) sampleUA
      (sampleCA none) (some "Hi") 2 rfl (by decide)⟩⟩

/-- The user agent returned by a successful `generate_response` call: the
old state with one user-agent entry appended. -/
def genAppend (ua : UserAgent) (env : Env) (r : String) : UserAgent :=
  { ua with conversation_history :=
      ua.conversation_history ++
        [{ speaker := Speaker.user_agent, message := r
         , timestamp := env.stamp ua.conversation_history.length
         , response_time_seconds := none }] }

theorem generate_response_eq_some (ua : UserAgent) (env : Env) (i : Nat)
    (r : String) (hcl : ua.clientAvailable = true)
    (hg : env.userGen i = some r) :
    UserAgent.generate_response ua env i = (some r, genAppend ua env r) := by
  simp [UserAgent.generate_response, genAppend, hcl, hg]

theorem chat_generate_eq (ca : ChatAgent) (env : Env) (i : Nat) (r : String)
    (hcl : ca.clientAvailable = true) (hg : env.chatGen i = some r) :
    ChatAgent.generate_response ca env i = some r := by
  simp [ChatAgent.generate_response, hcl, hg]

/-- The user-agent state holding only the recorded greeting turn, at the
start of the scenario runs below. -/
def c6ua0 (env : Env) : UserAgent :=
  appendTurn sampleUA Speaker.chat_agent "greet"
    (env.stamp sampleUA.conversation_history.length) (some "0.0")

/-- Loop state at the top of the greeting-opened scenario run. -/
def c6st0 (env : Env) : LoopState :=
  { ua := c6ua0 env, turn_count := 0, uIdx := 0, cIdx := 0
  , last_message := "greet" }

/-- Scenario state after the Initiator's first loop turn. -/
def c6st1 (env : Env) (a : String) : LoopState :=
  userNext env (c6st0 env) a (genAppend (c6ua0 env) env a)

/-- Scenario state after the Responder's first loop turn. -/
def c6st2 (env : Env) (a b : String) : LoopState :=
  chatNext env (c6st1 env a) b

/-- Scenario state after the Initiator's second loop turn. -/
def c6st3 (env : Env) (a b c : String) : LoopState :=
  userNext env (c6st2 env a b) c (genAppend (c6st2 env a b).ua env c)

/-- Scenario state after the Responder's second loop turn. -/
def c6st4 (env : Env) (a b c d : String) : LoopState :=
  chatNext env (c6st3 env a b c) d

/-- Scenario state at the natural end when the Initiator's second loop turn
contains the closing phrase and the bonus reply succeeds. -/
def c6stG (env : Env) (a b c d : String) : LoopState :=
  goodbyeFinal env (c6st2 env a b) c d (genAppend (c6st2 env a b).ua env c)

theorem c6_budget_aux (env : Env) (a b c d : String)
    (hu0 : env.userGen 0 = some a) (hu1 : env.userGen 1 = some c)
    (hc0 : env.chatGen 0 = some b) (hc1 : env.chatGen 1 = some d)
    (hsa : should_end_conversation a = false)
    (hsc : should_end_conversation c = false) :
    (start_conversation sampleUA (sampleCA (some "greet")) env none 4).1.turn_count = 4
    ∧ (start_conversation sampleUA (sampleCA (some "greet")) env none 4).2.2
        = ExitKind.budget
    ∧ (start_conversation sampleUA (sampleCA (some "greet")) env none 4).2.1.conversation_history.map
        (fun t => (t.speaker, t.message, t.response_time_seconds))
      = [ (Speaker.chat_agent, "greet", some "0.0")
        , (Speaker.user_agent, a, some (env.userTime 0))
        , (Speaker.chat_agent, b, some (env.chatTime 0))
        , (Speaker.user_agent, c, some (env.userTime 1))
        , (Speaker.chat_agent, d, some (env.chatTime 1)) ] := by
  have hloop : conversationLoop env (sampleCA (some "greet")) 1 4 4 (c6st0 env)
      = (c6st4 env a b c d, ExitKind.budget) :=
    (conversationLoop_userStep env (sampleCA (some "greet")) 1 4 3 (c6st0 env) a
        (genAppend (c6ua0 env) env a) (by decide : (0:Nat) < 4)
        (by decide : ¬ (0:Nat) % 2 = 1)
        (generate_response_eq_some (c6ua0 env) env 0 a rfl hu0) hsa).trans
      ((conversationLoop_chatStep env (sampleCA (some "greet")) 1 4 2
          (c6st1 env a) b (by decide : (1:Nat) < 4)
          (by decide : (1:Nat) % 2 = 1)
          (chat_generate_eq (sampleCA (some "greet")) env 0 b rfl hc0)).trans
        ((conversationLoop_userStep env (sampleCA (some "greet")) 1 4 1
            (c6st2 env a b) c (genAppend (c6st2 env a b).ua env c)
            (by decide : (2:Nat) < 4) (by decide : ¬ (2:Nat) % 2 = 1)
            (generate_response_eq_some (c6st2 env a b).ua env 1 c rfl hu1)
            hsc).trans
          ((conversationLoop_chatStep env (sampleCA (some "greet")) 1 4 0
              (c6st3 env a b c) d (by decide : (3:Nat) < 4)
              (by decide : (3:Nat) % 2 = 1)
              (chat_generate_eq (sampleCA (some "greet")) env 1 d rfl hc1)).trans
            rfl)))
  have hstart : start_conversation sampleUA (sampleCA (some "greet")) env none 4
      = (create_result_dict (c6st4 env a b c d).ua (sampleCA (some "greet")) true
          "Conversation completed successfully" (c6st4 env a b c d).turn_count
          (some (save_conversation (c6st4 env a b c d).ua)),
         (c6st4 env a b c d).ua, ExitKind.budget) := by
    show (create_result_dict
        (conversationLoop env (sampleCA (some "greet")) 1 4 4 (c6st0 env)).1.ua
        (sampleCA (some "greet")) true "Conversation completed successfully"
        (conversationLoop env (sampleCA (some "greet")) 1 4 4 (c6st0 env)).1.turn_count
        (some (save_conversation
          (conversationLoop env (sampleCA (some "greet")) 1 4 4 (c6st0 env)).1.ua)),
       (conversationLoop env (sampleCA (some "greet")) 1 4 4 (c6st0 env)).1.ua,
       (conversationLoop env (sampleCA (some "greet")) 1 4 4 (c6st0 env)).2) = _
    rw [hloop]
  rw [hstart]
  exact ⟨rfl, rfl, rfl⟩

theorem c6_goodbye_aux (env : Env) (a b c d : String)
    (hu0 : env.userGen 0 = some a) (hu1 : env.userGen 1 = some c)
    (hc0 : env.chatGen 0 = some b) (hc1 : env.chatGen 1 = some d)
    (hsa : should_end_conversation a = false)
    (hsc : should_end_conversation c = true) (hdne : ¬ d = "") :
    (start_conversation sampleUA (sampleCA (some "greet")) env none 4).1.turn_count = 3
    ∧ (start_conversation sampleUA (sampleCA (some "greet")) env none 4).2.2
        = ExitKind.natural
    ∧ (start_conversation sampleUA (sampleCA (some "greet")) env none 4).2.1.conversation_history.map
        (fun t => (t.speaker, t.message, t.response_time_seconds))
      = [ (Speaker.chat_agent, "greet", some "0.0")
        , (Speaker.user_agent, a, some (env.userTime 0))
        , (Speaker.chat_agent, b, some (env.chatTime 0))
        , (Speaker.user_agent, c, some (env.userTime 1))
        , (Speaker.chat_agent, d, some (env.chatTime 1)) ] := by
  have hloop : conversationLoop env (sampleCA (some "greet")) 1 4 4 (c6st0 env)
      = (c6stG env a b c d, ExitKind.natural) :=
    (conversationLoop_userStep env (sampleCA (some "greet")) 1 4 3 (c6st0 env) a
        (genAppend (c6ua0 env) env a) (by decide : (0:Nat) < 4)
        (by decide : ¬ (0:Nat) % 2 = 1)
        (generate_response_eq_some (c6ua0 env) env 0 a rfl hu0) hsa).trans
      ((conversationLoop_chatStep env (sampleCA (some "greet")) 1 4 2
          (c6st1 env a) b (by decide : (1:Nat) < 4)
          (by decide : (1:Nat) % 2 = 1)
          (chat_generate_eq (sampleCA (some "greet")) env 0 b rfl hc0)).trans
        (conversationLoop_goodbyeFinal env (sampleCA (some "greet")) 1 4 1
          (c6st2 env a b) c d (genAppend (c6st2 env a b).ua env c)
          (by decide : (2:Nat) < 4) (by decide : ¬ (2:Nat) % 2 = 1)
          (generate_response_eq_some (c6st2 env a b).ua env 1 c rfl hu1)
          hsc (chat_generate_eq (sampleCA (some "greet")) env 1 d rfl hc1) hdne))
  have hstart : start_conversation sampleUA (sampleCA (some "greet")) env none 4
      = (create_result_dict (c6stG env a b c d).ua (sampleCA (some "greet")) true
          "Conversation completed successfully" (c6stG env a b c d).turn_count
          (some (save_conversation (c6stG env a b c d).ua)),
         (c6stG env a b c d).ua, ExitKind.natural) := by
    show (create_result_dict
        (conversationLoop env (sampleCA (some "greet")) 1 4 4 (c6st0 env)).1.ua
        (sampleCA (some "greet")) true "Conversation completed successfully"
        (conversationLoop env (sampleCA (some "greet")) 1 4 4 (c6st0 env)).1.turn_count
        (some (save_conversation
          (conversationLoop env (sampleCA (some "greet")) 1 4 4 (c6st0 env)).1.ua)),
       (conversationLoop env (sampleCA (some "greet")) 1 4 4 (c6st0 env)).1.ua,
       (conversationLoop env (sampleCA (some "greet")) 1 4 4 (c6st0 env)).2) = _
    rw [hloop]
  rw [hstart]
  exact ⟨rfl, rfl, rfl⟩

/-- C6 (amended): the opening utterance resolves with priority explicit
message > truthy predefined greeting > none.  In a greeting-opened run with
`max_turns = 4` and successful generations, the greeting is turn 0 spoken by
the Responder with `response_time_seconds = "0.0"`, the Initiator speaks
next and roles alternate, and with no closing phrase the run ends by budget
exhaustion with `turn_count = 4` over 5 history entries.  When the closing
phrase instead appears in the Initiator's second loop turn and the bonus
Responder reply is truthy, the run ends naturally with `turn_count = 3` —
not the claimed 5 (the counter never reaches 5 with this budget). -/
theorem c6_amended :
    ((∀ m ca2, resolveOpening (some m) ca2 = some m)
      ∧ (∀ ca2 : ChatAgent, truthy ca2.initial_message = true →
          resolveOpening none ca2 = ca2.initial_message)
      ∧ (∀ ca2 : ChatAgent, truthy ca2.initial_message = false →
          resolveOpening none ca2 = none))
    ∧ (∀ env a b c d,
        env.userGen 0 = some a → env.userGen 1 = some c →
        env.chatGen 0 = some b → env.chatGen 1 = some d →
        should_end_conversation a = false → should_end_conversation c = false →
          (start_conversation sampleUA (sampleCA (some "greet")) env none 4).1.turn_count = 4
          ∧ (start_conversation sampleUA (sampleCA (some "greet")) env none 4).2.2
              = ExitKind.budget
          ∧ (start_conversation sampleUA (sampleCA (some "greet")) env
              none 4).2.1.conversation_history.map
                (fun t => (t.speaker, t.message, t.response_time_seconds))
            = [ (Speaker.chat_agent, "greet", some "0.0")
              , (Speaker.user_agent, a, some (env.userTime 0))
              , (Speaker.chat_agent, b, some (env.chatTime 0))
              , (Speaker.user_agent, c, some (env.userTime 1))
              , (Speaker.chat_agent, d, some (env.chatTime 1)) ])
    ∧ (∀ env a b c d,
        env.userGen 0 = some a → env.userGen 1 = some c →
        env.chatGen 0 = some b → env.chatGen 1 = some d →
        should_end_conversation a = false → should_end_conversation c = true →
        ¬ d = "" →
          (start_conversation sampleUA (sampleCA (some "greet")) env none 4).1.turn_count = 3
          ∧ (start_conversation sampleUA (sampleCA (some "greet")) env none 4).2.2
              = ExitKind.natural
          ∧ (start_conversation sampleUA (sampleCA (some "greet")) env
              none 4).2.1.conversation_history.map
                (fun t => (t.speaker, t.message, t.response_time_seconds))
            = [ (Speaker.chat_agent, "greet", some "0.0")
              , (Speaker.user_agent, a, some (env.userTime 0))
              , (Speaker.chat_agent, b, some (env.chatTime 0))
              , (Speaker.user_agent, c, some (env.userTime 1))
              , (Speaker.chat_agent, d, some (env.chatTime 1)) ]) := by
  refine ⟨⟨fun m ca2 => rfl, ?_, ?_⟩, ?_, ?_⟩
  · intro ca2 h
    simp [resolveOpening, h]
  · intro ca2 h
    simp [resolveOpening, h]
  · intro env a b c d hu0 hu1 hc0 hc1 hsa hsc
    exact c6_budget_aux env a b c d hu0 hu1 hc0 hc1 hsa hsc
  · intro env a b c d hu0 hu1 hc0 hc1 hsa hsc hdne
    exact c6_goodbye_aux env a b c d hu0 hu1 hc0 hc1 hsa hsc hdne

/-- Witness for the amended greeting-scenario theorem: one concrete
budget-exhausted run with `turn_count = 4` and one concrete goodbye run with
`turn_count = 3`, both with all hypotheses discharged on explicit
environments. -/
theorem c6_amended_witness :
    ((start_conversation sampleUA (sampleCA (some "greet"))
        (sampleEnv (fun i => if i = 0 then some "ua" else some "ub")
          (fun i => if i = 0 then some "ca" else some "cb")) none 4).1.turn_count = 4)
    ∧ ((start_conversation sampleUA (sampleCA (some "greet"))
        (sampleEnv (fun i => if i = 0 then some "hello" else some "ok thank you, goodbye.")
          (fun _ => some "c")) none 4).1.turn_count = 3) :=
  ⟨(c6_amended.2.1
      (sampleEnv (fun i => if i = 0 then some "ua" else some "ub")
        (fun i => if i = 0 then some "ca" else some "cb"))
      "ua" "ca" "ub" "cb" (by decide) (by decide) (by decide) (by decide)
      (by decide) (by decide)).1,
   (c6_amended.2.2
      (sampleEnv (fun i => if i = 0 then some "hello" else some "ok thank you, goodbye.")
        (fun _ => some "c"))
      "hello" "c" "ok thank you, goodbye." "c" (by decide) (by decide)
      (by decide) (by decide) (by decide) (by decide) (by decide)).1⟩
